import Mathlib

/-!
Verification of the pysc2 environment converter (C++ sources under
pysc2/env/converter/cc) against its natural-language specification.

The C++ code is shallowly embedded: machine integers are modelled as Int,
protobuf floating point fields as exact rationals (every IEEE float value is
a rational; NaN and the infinities are modelled explicitly where the code
distinguishes them), protobuf messages as Lean structures with Option fields
for optional submessages, and fatal CHECK failures / absl error statuses as
explicit result constructors.
-/

namespace PySC2

set_option maxRecDepth 100000

attribute [local semireducible] Rat.mul Rat.inv Rat.add Rat.sub

/-! ## castops.h -/

/-- A floating point input value: NaN, one of the two infinities, or a finite
value (every finite IEEE value is a rational, modelled exactly). -/
inductive FloatVal where
  | nan : FloatVal
  | posInf : FloatVal
  | negInf : FloatVal
  | finite : ℚ → FloatVal
deriving DecidableEq

/-- INT32_MIN, the minimum representable signed 32-bit integer. -/
def int32Min : Int := -(2 ^ 31)

/-- INT32_MAX, the maximum representable signed 32-bit integer. -/
def int32Max : Int := 2 ^ 31 - 1

/-- C truncation-toward-zero of a real value to an integer
(static_cast from a floating type to an integer type). -/
def rtrunc (q : ℚ) : Int := if 0 ≤ q then ⌊q⌋ else ⌈q⌉

/-- castops.h SmallerThanOrEqualToIntMax, specialised to IntType = int32
(std numeric_limits digits = 31).  The frexp exponent of a positive value q
(the unique e with 2^(e-1) ≤ q < 2^e) is Int.log 2 q + 1. -/
def SmallerThanOrEqualToIntMax (value : FloatVal) : Bool :=
  match value with
  | .negInf => true
  | .nan => false
  | .posInf => false
  | .finite q =>
    if q ≤ 0 then true
    else decide (Int.log 2 q + 1 ≤ 31)

/-- castops.h ToInt32 specialised to int32: truncates in-range values,
returns INT32_MIN for everything out of range, NaN included. -/
def ToInt32 (value : FloatVal) : Int :=
  match value with
  | .finite q =>
    if ((int32Min : ℚ) ≤ q) ∧ SmallerThanOrEqualToIntMax (.finite q) = true then
      rtrunc q
    else
      int32Min
  | .nan => int32Min
  | .posInf => int32Min
  | .negInf => int32Min

/-- Shorthand for ToInt32 on a finite (rational-modelled) float. -/
def ToInt32Q (q : ℚ) : Int := ToInt32 (.finite q)

/-! ## game_data/raw_actions.h

The raw function table type.  The table contents (RawFunctions) live in a
generated source file that is not part of the sources here, so every
definition below is parameterised by the table. -/

/-- RawFunctionType from game_data/raw_actions.h. -/
inductive RawFunctionType where
  | NO_OP : RawFunctionType
  | RAW_CMD_PT : RawFunctionType
  | RAW_CMD_UNIT : RawFunctionType
  | RAW_CMD : RawFunctionType
  | RAW_MOVE_CAMERA : RawFunctionType
  | RAW_AUTOCAST : RawFunctionType
deriving DecidableEq, Inhabited

/-- RawFunction from game_data/raw_actions.h (field defaults as in C++). -/
structure RawFunction where
  label : String := ""
  type : RawFunctionType := .NO_OP
  ability_id : Int := 0
  general_id : Int := 0
deriving DecidableEq, Inhabited

/-! ## general_order_ids.cc -/

/-- First constructor pass of OrderIdToGeneralLookup: the index of the
general entry (general_id unset, i.e. 0) with the given (type, ability_id)
pair.  The constructor CHECK rules out duplicates, so the first match is
the only match. -/
def generalToGeneralGameId (L : List RawFunction) (t : RawFunctionType)
    (a : Int) : Option Nat :=
  L.findIdx? (fun f =>
    decide (f.general_id = 0) && decide (f.type = t) && decide (f.ability_id = a))

/-- Second constructor pass, for table index i: the index of the general
counterpart of function i.  The C++ reads the first-pass hash map through
operator[], which default-inserts 0 when the (type, general_id) pair has no
general entry; getD 0 models that. -/
def gameIdToGeneralGameId (L : List RawFunction) (i : Nat) : Nat :=
  let f := L.getD i default
  let general_id := if f.general_id = 0 then f.ability_id else f.general_id
  (generalToGeneralGameId L f.type general_id).getD 0

/-- OrderIdToGeneralLookup Lookup: the second-pass map has exactly the keys
0 .. L.length - 1; anything else returns 0. -/
def OrderIdToGeneralLookup (L : List RawFunction) (game_id : Int) : Int :=
  if 0 ≤ game_id ∧ game_id < L.length then
    (gameIdToGeneralGameId L game_id.toNat : Int)
  else 0

/-- general_order_ids.cc GeneralOrderId. -/
def GeneralOrderId (L : List RawFunction) (order_id num_action_types : Int) :
    Int :=
  let general_order_id := OrderIdToGeneralLookup L order_id
  if general_order_id < num_action_types then general_order_id else 0

/-! ## encode_image_data.h -/

/-- An SC2APIProtocol ImageData: size (x, y), bits per pixel, byte buffer.
Bytes are modelled as naturals below 256. -/
structure ImageData where
  xsize : Int
  ysize : Int
  bits_per_pixel : Int
  data : List Nat
deriving DecidableEq

/-- Result of EncodeImageData: the row-major pixel buffer, an accepted
empty-plane no-op, or a fatal CHECK / LOG(FATAL). -/
inductive EncodeOutcome where
  | ok : List Int → EncodeOutcome
  | noop : EncodeOutcome
  | fatal : EncodeOutcome
deriving DecidableEq

/-- The eight pixels obtained from one byte, most significant bit first
((c right-shifted by i) bitand 1, for i = 7 down to 0). -/
def byteBitsMSB (c : Nat) : List Int :=
  (List.range 8).map (fun i => if c.testBit (7 - i) then 1 else 0)

/-- A char of the buffer read as a signed value (chars are signed here). -/
def signedChar (b : Nat) : Int := if b < 128 then (b : Int) else (b : Int) - 256

/-- A 32-bit unsigned little-endian word read as a (possibly wrapped)
signed int when handed to the transform. -/
def signedInt32OfWord (w : Nat) : Int :=
  if w < 2 ^ 31 then (w : Int) else (w : Int) - 2 ^ 32

/-- The little-endian 32-bit words of a byte buffer (the trailing bytes of
a buffer whose length is not a multiple of 4 are never read, because the
CHECK on the buffer length fires first). -/
def le32Words : List Nat → List Nat
  | b0 :: b1 :: b2 :: b3 :: rest =>
    (b0 + 256 * b1 + 65536 * b2 + 16777216 * b3) :: le32Words rest
  | _ => []

/-- EncodeImageData1Bit.  The output matrix is allocated by the caller with
data.size().x() rows and data.size().y() columns, so the two dimension
CHECKs hold by construction; the remaining CHECKs are size().y() > 0 and
bytes * 8 = x * y.  Pixel k is written at row k / y and column k mod y,
i.e. at flat row-major index k. -/
def EncodeImageData1Bit (data : ImageData) : EncodeOutcome :=
  if 0 < data.ysize ∧ (data.data.length : Int) * 8 = data.xsize * data.ysize then
    .ok (data.data.flatMap byteBitsMSB)
  else .fatal

/-- EncodeImageData8Bit with T = uint8 (the instantiation the converter
uses): without a transform each byte is the pixel, with a transform the
byte is read as a signed char and passed through it. -/
def EncodeImageData8Bit (data : ImageData) (transform : Option (Int → Int)) :
    EncodeOutcome :=
  if 0 < data.ysize ∧ (data.data.length : Int) = data.xsize * data.ysize then
    match transform with
    | some f => .ok (data.data.map (fun c => f (signedChar c)))
    | none => .ok (data.data.map (fun c => (c : Int)))
  else .fatal

/-- EncodeImageData32Bit with T = uint8: without a transform the
reinterpret-cast to T reads the low byte of each little-endian word; with a
transform the word is passed through it as an int. -/
def EncodeImageData32Bit (data : ImageData) (transform : Option (Int → Int)) :
    EncodeOutcome :=
  if 0 < data.ysize ∧ (data.data.length : Int) = 4 * (data.xsize * data.ysize) then
    match transform with
    | some f => .ok ((le32Words data.data).map (fun w => f (signedInt32OfWord w)))
    | none => .ok ((le32Words data.data).map (fun w => ((w % 256 : Nat) : Int)))
  else .fatal

/-- EncodeImageData dispatch on bits_per_pixel. -/
def EncodeImageData (image : ImageData) (transform : Option (Int → Int)) :
    EncodeOutcome :=
  if image.bits_per_pixel = 1 then
    if transform.isSome then .fatal
    else EncodeImageData1Bit image
  else if image.bits_per_pixel = 8 then
    EncodeImageData8Bit image transform
  else if image.bits_per_pixel = 32 then
    EncodeImageData32Bit image transform
  else if image.bits_per_pixel = 0 then
    if transform.isSome then .fatal
    else .noop
  else .fatal

/-! ## game_data/uint8_lookup.cc -/

/-- Modelled from the spec: the engine unit-type id constants
(game_data/proto/units.proto) are not part of the sources here; the spec
describes them only as a sparse, engine-defined integer id space, so each
name is modelled as a distinct integer code.  The claims depend only on
which names coincide, never on the numeric values.  Codes 1..243 are the
names of kUnitsList in order; codes from 1001 are the extra names that
appear only as redundant ids. -/
def Protoss.Colossus : Int := 1
def Terran.TechLab : Int := 2
def Terran.Reactor : Int := 3
def Zerg.InfestedTerran : Int := 4
def Zerg.BanelingCocoon : Int := 5
def Zerg.Baneling : Int := 6
def Protoss.Mothership : Int := 7
def Terran.PointDefenseDrone : Int := 8
def Zerg.Changeling : Int := 9
def Zerg.ChangelingZealot : Int := 10
def Zerg.ChangelingMarineShield : Int := 11
def Zerg.ChangelingMarine : Int := 12
def Zerg.ChangelingZerglingWings : Int := 13
def Zerg.ChangelingZergling : Int := 14
def Terran.CommandCenter : Int := 15
def Terran.SupplyDepot : Int := 16
def Terran.Refinery : Int := 17
def Terran.Barracks : Int := 18
def Terran.EngineeringBay : Int := 19
def Terran.MissileTurret : Int := 20
def Terran.Bunker : Int := 21
def Terran.SensorTower : Int := 22
def Terran.GhostAcademy : Int := 23
def Terran.Factory : Int := 24
def Terran.Starport : Int := 25
def Terran.Armory : Int := 26
def Terran.FusionCore : Int := 27
def Terran.AutoTurret : Int := 28
def Terran.SiegeTankSieged : Int := 29
def Terran.SiegeTank : Int := 30
def Terran.VikingAssault : Int := 31
def Terran.VikingFighter : Int := 32
def Terran.CommandCenterFlying : Int := 33
def Terran.BarracksTechLab : Int := 34
def Terran.BarracksReactor : Int := 35
def Terran.FactoryTechLab : Int := 36
def Terran.FactoryReactor : Int := 37
def Terran.StarportTechLab : Int := 38
def Terran.StarportReactor : Int := 39
def Terran.FactoryFlying : Int := 40
def Terran.StarportFlying : Int := 41
def Terran.SCV : Int := 42
def Terran.BarracksFlying : Int := 43
def Terran.SupplyDepotLowered : Int := 44
def Terran.Marine : Int := 45
def Terran.Reaper : Int := 46
def Terran.Ghost : Int := 47
def Terran.Marauder : Int := 48
def Terran.Thor : Int := 49
def Terran.Hellion : Int := 50
def Terran.Medivac : Int := 51
def Terran.Banshee : Int := 52
def Terran.Raven : Int := 53
def Terran.Battlecruiser : Int := 54
def Terran.Nuke : Int := 55
def Protoss.Nexus : Int := 56
def Protoss.Pylon : Int := 57
def Protoss.Assimilator : Int := 58
def Protoss.Gateway : Int := 59
def Protoss.Forge : Int := 60
def Protoss.FleetBeacon : Int := 61
def Protoss.TwilightCouncil : Int := 62
def Protoss.PhotonCannon : Int := 63
def Protoss.Stargate : Int := 64
def Protoss.TemplarArchive : Int := 65
def Protoss.DarkShrine : Int := 66
def Protoss.RoboticsBay : Int := 67
def Protoss.RoboticsFacility : Int := 68
def Protoss.CyberneticsCore : Int := 69
def Protoss.Zealot : Int := 70
def Protoss.Stalker : Int := 71
def Protoss.HighTemplar : Int := 72
def Protoss.DarkTemplar : Int := 73
def Protoss.Sentry : Int := 74
def Protoss.Phoenix : Int := 75
def Protoss.Carrier : Int := 76
def Protoss.VoidRay : Int := 77
def Protoss.WarpPrism : Int := 78
def Protoss.Observer : Int := 79
def Protoss.Immortal : Int := 80
def Protoss.Probe : Int := 81
def Protoss.Interceptor : Int := 82
def Zerg.Hatchery : Int := 83
def Zerg.CreepTumor : Int := 84
def Zerg.Extractor : Int := 85
def Zerg.SpawningPool : Int := 86
def Zerg.EvolutionChamber : Int := 87
def Zerg.HydraliskDen : Int := 88
def Zerg.Spire : Int := 89
def Zerg.UltraliskCavern : Int := 90
def Zerg.InfestationPit : Int := 91
def Zerg.NydusNetwork : Int := 92
def Zerg.BanelingNest : Int := 93
def Zerg.RoachWarren : Int := 94
def Zerg.SpineCrawler : Int := 95
def Zerg.SporeCrawler : Int := 96
def Zerg.Lair : Int := 97
def Zerg.Hive : Int := 98
def Zerg.GreaterSpire : Int := 99
def Zerg.Cocoon : Int := 100
def Zerg.Drone : Int := 101
def Zerg.Zergling : Int := 102
def Zerg.Overlord : Int := 103
def Zerg.Hydralisk : Int := 104
def Zerg.Mutalisk : Int := 105
def Zerg.Ultralisk : Int := 106
def Zerg.Roach : Int := 107
def Zerg.Infestor : Int := 108
def Zerg.Corruptor : Int := 109
def Zerg.BroodLordCocoon : Int := 110
def Zerg.BroodLord : Int := 111
def Zerg.BanelingBurrowed : Int := 112
def Zerg.DroneBurrowed : Int := 113
def Zerg.HydraliskBurrowed : Int := 114
def Zerg.RoachBurrowed : Int := 115
def Zerg.ZerglingBurrowed : Int := 116
def Zerg.InfestedTerranBurrowed : Int := 117
def Zerg.QueenBurrowed : Int := 118
def Zerg.Queen : Int := 119
def Zerg.InfestorBurrowed : Int := 120
def Zerg.OverseerCocoon : Int := 121
def Zerg.Overseer : Int := 122
def Terran.PlanetaryFortress : Int := 123
def Zerg.UltraliskBurrowed : Int := 124
def Terran.OrbitalCommand : Int := 125
def Protoss.WarpGate : Int := 126
def Terran.OrbitalCommandFlying : Int := 127
def Protoss.ForceField : Int := 128
def Protoss.WarpPrismPhasing : Int := 129
def Zerg.CreepTumorBurrowed : Int := 130
def Zerg.CreepTumorQueen : Int := 131
def Zerg.SpineCrawlerUprooted : Int := 132
def Zerg.SporeCrawlerUprooted : Int := 133
def Protoss.Archon : Int := 134
def Zerg.NydusCanal : Int := 135
def Zerg.BroodlingEscort : Int := 136
def Neutral.RichMineralField : Int := 137
def Neutral.RichMineralField750 : Int := 138
def Neutral.XelNagaTower : Int := 139
def Zerg.InfestedTerranCocoon : Int := 140
def Zerg.Larva : Int := 141
def Terran.MULE : Int := 142
def Zerg.Broodling : Int := 143
def Protoss.Adept : Int := 144
def Neutral.KarakFemale : Int := 145
def Neutral.UtilityBot : Int := 146
def Neutral.Scantipede : Int := 147
def Neutral.MineralField : Int := 148
def Neutral.VespeneGeyser : Int := 149
def Neutral.SpacePlatformGeyser : Int := 150
def Neutral.RichVespeneGeyser : Int := 151
def Neutral.DestructibleDebris6x6 : Int := 152
def Neutral.DestructibleRock6x6 : Int := 153
def Neutral.DestructibleDebrisRampDiagonalHugeULBR : Int := 154
def Neutral.DestructibleDebrisRampDiagonalHugeBLUR : Int := 155
def Neutral.UnbuildableBricksDestructible : Int := 156
def Neutral.UnbuildablePlatesDestructible : Int := 157
def Neutral.MineralField750 : Int := 158
def Terran.Hellbat : Int := 159
def Neutral.CollapsibleTerranTowerDebris : Int := 160
def Neutral.DebrisRampLeft : Int := 161
def Neutral.DebrisRampRight : Int := 162
def Protoss.MothershipCore : Int := 163
def Zerg.Locust : Int := 164
def Neutral.CollapsibleRockTowerDebris : Int := 165
def Zerg.SwarmHostBurrowed : Int := 166
def Zerg.SwarmHost : Int := 167
def Protoss.Oracle : Int := 168
def Protoss.Tempest : Int := 169
def Terran.WidowMine : Int := 170
def Zerg.Viper : Int := 171
def Terran.WidowMineBurrowed : Int := 172
def Zerg.LurkerCocoon : Int := 173
def Zerg.Lurker : Int := 174
def Zerg.LurkerBurrowed : Int := 175
def Zerg.LurkerDen : Int := 176
def Neutral.CollapsibleTerranTowerPushUnitRampLeft : Int := 177
def Neutral.CollapsibleTerranTowerPushUnitRampRight : Int := 178
def Neutral.CollapsibleRockTowerPushUnit : Int := 179
def Neutral.CollapsibleTerranTowerPushUnit : Int := 180
def Neutral.CollapsibleRockTowerDiagonal : Int := 181
def Neutral.CollapsibleTerranTowerDiagonal : Int := 182
def Neutral.CollapsibleTerranTowerRampLeft : Int := 183
def Neutral.CollapsibleTerranTowerRampRight : Int := 184
def Neutral.ProtossVespeneGeyser : Int := 185
def Neutral.DestructibleRockEx1DiagonalHugeBLUR : Int := 186
def Neutral.LabMineralField : Int := 187
def Neutral.LabMineralField750 : Int := 188
def Zerg.RavagerCocoon : Int := 189
def Zerg.Ravager : Int := 190
def Terran.Liberator : Int := 191
def Zerg.RavagerBurrowed : Int := 192
def Terran.ThorHighImpactMode : Int := 193
def Terran.Cyclone : Int := 194
def Zerg.LocustFlying : Int := 195
def Protoss.Disruptor : Int := 196
def Protoss.StasisTrap : Int := 197
def Protoss.DisruptorPhased : Int := 198
def Terran.LiberatorAG : Int := 199
def Neutral.PurifierRichMineralField : Int := 200
def Neutral.PurifierRichMineralField750 : Int := 201
def Protoss.AdeptPhaseShift : Int := 202
def Zerg.ParasiticBombDummy : Int := 203
def Terran.KD8Charge : Int := 204
def Neutral.BattleStationMineralField : Int := 205
def Neutral.BattleStationMineralField750 : Int := 206
def Neutral.PurifierVespeneGeyser : Int := 207
def Neutral.ShakurasVespeneGeyser : Int := 208
def Neutral.PurifierMineralField : Int := 209
def Neutral.PurifierMineralField750 : Int := 210
def Zerg.OverlordTransportCocoon : Int := 211
def Zerg.OverlordTransport : Int := 212
def Protoss.PylonOvercharged : Int := 213
def Protoss.ShieldBattery : Int := 214
def Protoss.ObserverSurveillanceMode : Int := 215
def Zerg.OverseerOversightMode : Int := 216
def Terran.RepairDrone : Int := 217
def Terran.GhostAlternate : Int := 218
def Terran.GhostNova : Int := 219
def Neutral.UnbuildableRocksDestructible : Int := 220
def Neutral.CollapsibleRockTowerDebrisRampRight : Int := 221
def Neutral.CollapsibleRockTowerDebrisRampLeft : Int := 222
def Neutral.CollapsibleRockTowerPushUnitRampRight : Int := 223
def Neutral.CollapsibleRockTowerPushUnitRampLeft : Int := 224
def Neutral.DestructibleCityDebrisHugeDiagonalBLUR : Int := 225
def Neutral.DestructibleRockEx14x4 : Int := 226
def Neutral.DestructibleRockEx16x6 : Int := 227
def Neutral.LabBot : Int := 228
def Neutral.CollapsibleRockTowerRampRight : Int := 229
def Neutral.CollapsibleRockTowerRampLeft : Int := 230
def Neutral.XelNagaDestructibleBlocker8NE : Int := 231
def Neutral.XelNagaDestructibleBlocker8SW : Int := 232
def Neutral.CarrionBird : Int := 233
def Neutral.DestructibleRampDiagonalHugeBLUR : Int := 234
def Neutral.DestructibleRockEx1DiagonalHugeULBR : Int := 235
def Neutral.DestructibleRockEx1HorizontalHuge : Int := 236
def Neutral.DestructibleRockEx1VerticalHuge : Int := 237
def Neutral.InhibitorZoneMedium : Int := 238
def Neutral.InhibitorZoneSmall : Int := 239
def Neutral.MineralField450 : Int := 240
def Protoss.AssimilatorRich : Int := 241
def Terran.RefineryRich : Int := 242
def Zerg.ExtractorRich : Int := 243

/-- Modelled from the spec: unit-type ids appearing only in the
redundancy pre-map, continued from the list above. -/
def Neutral.DestructibleIce4x4 : Int := 1001
def Neutral.DestructibleIceDiagonalHugeBLUR : Int := 1002
def Neutral.CleaningBot : Int := 1003
def Neutral.Lyote : Int := 1004
def Neutral.DestructibleIce6x6 : Int := 1005
def Neutral.DestructibleCityDebris6x6 : Int := 1006
def Neutral.DestructibleDebris4x4 : Int := 1007
def Neutral.DestructibleBillboardTall : Int := 1008
def Neutral.CollapsibleTerranTower : Int := 1009
def Neutral.CollapsibleRockTower : Int := 1010
def Neutral.ReptileCrate : Int := 1011
def Neutral.Crabeetle : Int := 1012
def Neutral.Debris2x2NonConjoined : Int := 1013
def Neutral.DestructibleCityDebris4x4 : Int := 1014
def Neutral.DestructibleRampDiagonalHugeULBR : Int := 1015
def Neutral.Dog : Int := 1016

/-- kUnitsList, the ordered unit-type reference list (243 entries). -/
def kUnitsList : List Int := [
  Protoss.Colossus,
  Terran.TechLab,
  Terran.Reactor,
  Zerg.InfestedTerran,
  Zerg.BanelingCocoon,
  Zerg.Baneling,
  Protoss.Mothership,
  Terran.PointDefenseDrone,
  Zerg.Changeling,
  Zerg.ChangelingZealot,
  Zerg.ChangelingMarineShield,
  Zerg.ChangelingMarine,
  Zerg.ChangelingZerglingWings,
  Zerg.ChangelingZergling,
  Terran.CommandCenter,
  Terran.SupplyDepot,
  Terran.Refinery,
  Terran.Barracks,
  Terran.EngineeringBay,
  Terran.MissileTurret,
  Terran.Bunker,
  Terran.SensorTower,
  Terran.GhostAcademy,
  Terran.Factory,
  Terran.Starport,
  Terran.Armory,
  Terran.FusionCore,
  Terran.AutoTurret,
  Terran.SiegeTankSieged,
  Terran.SiegeTank,
  Terran.VikingAssault,
  Terran.VikingFighter,
  Terran.CommandCenterFlying,
  Terran.BarracksTechLab,
  Terran.BarracksReactor,
  Terran.FactoryTechLab,
  Terran.FactoryReactor,
  Terran.StarportTechLab,
  Terran.StarportReactor,
  Terran.FactoryFlying,
  Terran.StarportFlying,
  Terran.SCV,
  Terran.BarracksFlying,
  Terran.SupplyDepotLowered,
  Terran.Marine,
  Terran.Reaper,
  Terran.Ghost,
  Terran.Marauder,
  Terran.Thor,
  Terran.Hellion,
  Terran.Medivac,
  Terran.Banshee,
  Terran.Raven,
  Terran.Battlecruiser,
  Terran.Nuke,
  Protoss.Nexus,
  Protoss.Pylon,
  Protoss.Assimilator,
  Protoss.Gateway,
  Protoss.Forge,
  Protoss.FleetBeacon,
  Protoss.TwilightCouncil,
  Protoss.PhotonCannon,
  Protoss.Stargate,
  Protoss.TemplarArchive,
  Protoss.DarkShrine,
  Protoss.RoboticsBay,
  Protoss.RoboticsFacility,
  Protoss.CyberneticsCore,
  Protoss.Zealot,
  Protoss.Stalker,
  Protoss.HighTemplar,
  Protoss.DarkTemplar,
  Protoss.Sentry,
  Protoss.Phoenix,
  Protoss.Carrier,
  Protoss.VoidRay,
  Protoss.WarpPrism,
  Protoss.Observer,
  Protoss.Immortal,
  Protoss.Probe,
  Protoss.Interceptor,
  Zerg.Hatchery,
  Zerg.CreepTumor,
  Zerg.Extractor,
  Zerg.SpawningPool,
  Zerg.EvolutionChamber,
  Zerg.HydraliskDen,
  Zerg.Spire,
  Zerg.UltraliskCavern,
  Zerg.InfestationPit,
  Zerg.NydusNetwork,
  Zerg.BanelingNest,
  Zerg.RoachWarren,
  Zerg.SpineCrawler,
  Zerg.SporeCrawler,
  Zerg.Lair,
  Zerg.Hive,
  Zerg.GreaterSpire,
  Zerg.Cocoon,
  Zerg.Drone,
  Zerg.Zergling,
  Zerg.Overlord,
  Zerg.Hydralisk,
  Zerg.Mutalisk,
  Zerg.Ultralisk,
  Zerg.Roach,
  Zerg.Infestor,
  Zerg.Corruptor,
  Zerg.BroodLordCocoon,
  Zerg.BroodLord,
  Zerg.BanelingBurrowed,
  Zerg.DroneBurrowed,
  Zerg.HydraliskBurrowed,
  Zerg.RoachBurrowed,
  Zerg.ZerglingBurrowed,
  Zerg.InfestedTerranBurrowed,
  Zerg.QueenBurrowed,
  Zerg.Queen,
  Zerg.InfestorBurrowed,
  Zerg.OverseerCocoon,
  Zerg.Overseer,
  Terran.PlanetaryFortress,
  Zerg.UltraliskBurrowed,
  Terran.OrbitalCommand,
  Protoss.WarpGate,
  Terran.OrbitalCommandFlying,
  Protoss.ForceField,
  Protoss.WarpPrismPhasing,
  Zerg.CreepTumorBurrowed,
  Zerg.CreepTumorQueen,
  Zerg.SpineCrawlerUprooted,
  Zerg.SporeCrawlerUprooted,
  Protoss.Archon,
  Zerg.NydusCanal,
  Zerg.BroodlingEscort,
  Neutral.RichMineralField,
  Neutral.RichMineralField750,
  Neutral.XelNagaTower,
  Zerg.InfestedTerranCocoon,
  Zerg.Larva,
  Terran.MULE,
  Zerg.Broodling,
  Protoss.Adept,
  Neutral.KarakFemale,
  Neutral.UtilityBot,
  Neutral.Scantipede,
  Neutral.MineralField,
  Neutral.VespeneGeyser,
  Neutral.SpacePlatformGeyser,
  Neutral.RichVespeneGeyser,
  Neutral.DestructibleDebris6x6,
  Neutral.DestructibleRock6x6,
  Neutral.DestructibleDebrisRampDiagonalHugeULBR,
  Neutral.DestructibleDebrisRampDiagonalHugeBLUR,
  Neutral.UnbuildableBricksDestructible,
  Neutral.UnbuildablePlatesDestructible,
  Neutral.MineralField750,
  Terran.Hellbat,
  Neutral.CollapsibleTerranTowerDebris,
  Neutral.DebrisRampLeft,
  Neutral.DebrisRampRight,
  Protoss.MothershipCore,
  Zerg.Locust,
  Neutral.CollapsibleRockTowerDebris,
  Zerg.SwarmHostBurrowed,
  Zerg.SwarmHost,
  Protoss.Oracle,
  Protoss.Tempest,
  Terran.WidowMine,
  Zerg.Viper,
  Terran.WidowMineBurrowed,
  Zerg.LurkerCocoon,
  Zerg.Lurker,
  Zerg.LurkerBurrowed,
  Zerg.LurkerDen,
  Neutral.CollapsibleTerranTowerPushUnitRampLeft,
  Neutral.CollapsibleTerranTowerPushUnitRampRight,
  Neutral.CollapsibleRockTowerPushUnit,
  Neutral.CollapsibleTerranTowerPushUnit,
  Neutral.CollapsibleRockTowerDiagonal,
  Neutral.CollapsibleTerranTowerDiagonal,
  Neutral.CollapsibleTerranTowerRampLeft,
  Neutral.CollapsibleTerranTowerRampRight,
  Neutral.ProtossVespeneGeyser,
  Neutral.DestructibleRockEx1DiagonalHugeBLUR,
  Neutral.LabMineralField,
  Neutral.LabMineralField750,
  Zerg.RavagerCocoon,
  Zerg.Ravager,
  Terran.Liberator,
  Zerg.RavagerBurrowed,
  Terran.ThorHighImpactMode,
  Terran.Cyclone,
  Zerg.LocustFlying,
  Protoss.Disruptor,
  Protoss.StasisTrap,
  Protoss.DisruptorPhased,
  Terran.LiberatorAG,
  Neutral.PurifierRichMineralField,
  Neutral.PurifierRichMineralField750,
  Protoss.AdeptPhaseShift,
  Zerg.ParasiticBombDummy,
  Terran.KD8Charge,
  Neutral.BattleStationMineralField,
  Neutral.BattleStationMineralField750,
  Neutral.PurifierVespeneGeyser,
  Neutral.ShakurasVespeneGeyser,
  Neutral.PurifierMineralField,
  Neutral.PurifierMineralField750,
  Zerg.OverlordTransportCocoon,
  Zerg.OverlordTransport,
  Protoss.PylonOvercharged,
  Protoss.ShieldBattery,
  Protoss.ObserverSurveillanceMode,
  Zerg.OverseerOversightMode,
  Terran.RepairDrone,
  Terran.GhostAlternate,
  Terran.GhostNova,
  Neutral.UnbuildableRocksDestructible,
  Neutral.CollapsibleRockTowerDebrisRampRight,
  Neutral.CollapsibleRockTowerDebrisRampLeft,
  Neutral.CollapsibleRockTowerPushUnitRampRight,
  Neutral.CollapsibleRockTowerPushUnitRampLeft,
  Neutral.DestructibleCityDebrisHugeDiagonalBLUR,
  Neutral.DestructibleRockEx14x4,
  Neutral.DestructibleRockEx16x6,
  Neutral.LabBot,
  Neutral.CollapsibleRockTowerRampRight,
  Neutral.CollapsibleRockTowerRampLeft,
  Neutral.XelNagaDestructibleBlocker8NE,
  Neutral.XelNagaDestructibleBlocker8SW,
  Neutral.CarrionBird,
  Neutral.DestructibleRampDiagonalHugeBLUR,
  Neutral.DestructibleRockEx1DiagonalHugeULBR,
  Neutral.DestructibleRockEx1HorizontalHuge,
  Neutral.DestructibleRockEx1VerticalHuge,
  Neutral.InhibitorZoneMedium,
  Neutral.InhibitorZoneSmall,
  Neutral.MineralField450,
  Protoss.AssimilatorRich,
  Terran.RefineryRich,
  Zerg.ExtractorRich]

/-- RedundantUnits: ids that map onto other existing units. -/
def RedundantUnits : List (Int × Int) := [
  (Neutral.DestructibleIce4x4, Neutral.DestructibleRockEx14x4),
  (Neutral.DestructibleIceDiagonalHugeBLUR, Neutral.DestructibleRampDiagonalHugeBLUR),
  (Neutral.CleaningBot, Neutral.LabBot),
  (Neutral.Lyote, Neutral.KarakFemale),
  (Neutral.DestructibleIce6x6, Neutral.DestructibleRock6x6),
  (Neutral.DestructibleCityDebris6x6, Neutral.DestructibleRock6x6),
  (Neutral.DestructibleDebris4x4, Neutral.DestructibleRockEx14x4),
  (Neutral.DestructibleBillboardTall, Neutral.KarakFemale),
  (Neutral.CollapsibleTerranTower, Neutral.CollapsibleTerranTowerRampLeft),
  (Neutral.CollapsibleRockTower, Neutral.CollapsibleRockTowerRampLeft),
  (Neutral.ReptileCrate, Neutral.KarakFemale),
  (Neutral.Crabeetle, Neutral.KarakFemale),
  (Neutral.Debris2x2NonConjoined, Neutral.DebrisRampLeft),
  (Neutral.DestructibleCityDebris4x4, Neutral.DestructibleRockEx14x4),
  (Neutral.DestructibleRampDiagonalHugeULBR, Neutral.DestructibleRockEx1DiagonalHugeULBR),
  (Neutral.Dog, Neutral.KarakFemale),
  (Neutral.InhibitorZoneMedium, Neutral.InhibitorZoneSmall)]

/-- One write of the BuildTable loop body, table[k] = v: later writes win. -/
def updateMap (m : Int → Option Nat) (k : Int) (v : Nat) : Int → Option Nat :=
  fun x => if x = k then some v else m x

/-- The BuildTable loop from index start onward: table[list[i]] = i + 1,
performed in list order on top of the map built so far. -/
def buildTableFrom (start : Nat) : List Int → (Int → Option Nat) → (Int → Option Nat)
  | [], m => m
  | id0 :: rest, m => buildTableFrom (start + 1) rest (updateMap m id0 (start + 1))

/-- uint8_lookup.cc BuildTable: table[0] = 0 (ground / no unit), then
table[list[i]] = i + 1 for each index i in order. -/
def BuildTable (list : List Int) : Int → Option Nat :=
  buildTableFrom 0 list (updateMap (fun _ => none) 0 0)

/-- uint8_lookup.cc LookUp: redirect data through the redundant pre-map if
present, then consult the table; a missing key is a fatal CHECK (none). -/
def LookUp (data : Int) (list : List Int) (redundant : List (Int × Int)) :
    Option Nat :=
  let d := match redundant.find? (fun p => decide (p.1 = data)) with
    | some p => p.2
    | none => data
  BuildTable list d

/-- uint8_lookup.cc PySc2ToUint8 (unit types). -/
def PySc2ToUint8 (data : Int) : Option Nat :=
  LookUp data kUnitsList RedundantUnits

/-- uint8_lookup.cc Uint8ToPySc2: inverse lookup, defined (CHECKed) for
indices 1..kUnitsList.size. -/
def Uint8ToPySc2 (utype : Int) : Option Int :=
  if 0 < utype ∧ utype ≤ (kUnitsList.length : Int) then
    some (kUnitsList.getD (utype.toNat - 1) 0)
  else none


/-! ## tensor_util.cc (the fragments the action codec uses) -/

/-- A dm_env_rpc Tensor payload: int32 or int64 arrays (the two widths
ToScalar and ToVector tolerate), or unset. -/
inductive Payload where
  | int32s : List Int → Payload
  | int64s : List Int → Payload
  | unset : Payload
deriving DecidableEq

/-- A dm_env_rpc Tensor: shape plus payload. -/
structure Tensor where
  shape : List Int
  payload : Payload
deriving DecidableEq

/-- tensor_util.cc MakeTensor(int): scalar int32 tensor with empty shape. -/
def MakeTensor (value : Int) : Tensor := ⟨[], .int32s [value]⟩

/-- tensor_util.cc ToScalar: the single element of a one-element int32 or
int64 payload; anything else is a fatal CHECK (none). -/
def ToScalar (t : Tensor) : Option Int :=
  match t.payload with
  | .int32s [v] => some v
  | .int64s [v] => some v
  | _ => none

/-- tensor_util.cc ToVector: the elements of an int32 or int64 payload;
an unset payload is a fatal CHECK (none). -/
def ToVector (t : Tensor) : Option (List Int) :=
  match t.payload with
  | .int32s a => some a
  | .int64s a => some a
  | .unset => none

/-! ## raw_actions_encoder.cc -/

/-- The part of an SC2APIProtocol raw-observation unit the action codec
reads: its stable tag. -/
structure UnitR where
  tag : Int
deriving DecidableEq, Inhabited

/-- RawActionsEncoder construction parameters (constructor CHECKs demand
positive map sizes, unit count, action types, and a square resolution;
raw_resolution is the common x = y value). -/
structure EncoderCfg where
  map_size_x : Int
  map_size_y : Int
  max_unit_count : Int
  max_selection_size : Int
  raw_resolution : Int
  num_action_types : Int
  shuffle_unit_tags : Bool
  action_repeat : Bool
deriving DecidableEq

/-- The agent-side action tensor map, with one optional slot per key the
encoder ever looks up. -/
structure TensorMap where
  function : Option Tensor := none
  world : Option Tensor := none
  queued : Option Tensor := none
  unit_tags : Option Tensor := none
  target_unit_tag : Option Tensor := none
  «repeat» : Option Tensor := none
deriving DecidableEq

/-- A raw game action: unit command, camera move, or autocast toggle.
World coordinates are proto floats, modelled as exact rationals. -/
inductive ActionRaw where
  | unitCommand (ability_id : Int) (unit_tags : List Int)
      (queue_command : Bool) (target_unit_tag : Option Int)
      (target_world_space_pos : Option (ℚ × ℚ)) : ActionRaw
  | cameraMove (x y : ℚ) : ActionRaw
  | toggleAutocast (ability_id : Int) (unit_tags : List Int) : ActionRaw
deriving DecidableEq

/-- raw_actions_encoder.cc FindOriginalTag: a position at or beyond the
unit count is assumed to be a literal unit tag, anything below it an index
into the current observation. -/
def FindOriginalTag (position : Int) (obs : List UnitR) : Int :=
  if (obs.length : Int) ≤ position then position
  else (obs.getD position.toNat default).tag

/-- raw_actions_encoder.cc LookupSelectedUnitTags: the sentinel value
(max_possible_index) is skipped, a negative index stops processing and
returns what was accumulated, every other index goes through
FindOriginalTag. -/
def LookupSelectedUnitTags (obs : List UnitR) (indices : List Int)
    (max_possible_index : Int) : List Int :=
  match indices with
  | [] => []
  | index :: rest =>
    if index = max_possible_index then
      LookupSelectedUnitTags obs rest max_possible_index
    else if index < 0 then []
    else FindOriginalTag index obs ::
      LookupSelectedUnitTags obs rest max_possible_index

/-- The inner FindFunction scan with map_to_general already spent: first
index whose ability and type both match, else 0 (logged no-op). -/
def FindFunctionExact (L : List RawFunction) (ability_id : Int)
    (t : RawFunctionType) : Int :=
  (((L.findIdx? (fun f => decide (f.ability_id = ability_id) &&
    decide (f.type = t))).getD 0 : Nat) : Int)

/-- raw_actions_encoder.cc FindFunction (map_to_general = true): scan for
the first entry matching the ability id and either carrying a general_id
(then resolve that general ability with map_to_general = false) or
matching the requested type exactly; 0 (no-op) if nothing matches. -/
def FindFunction (L : List RawFunction) (ability_id : Int)
    (t : RawFunctionType) : Int :=
  match L.findIdx? (fun f => decide (f.ability_id = ability_id) &&
      (decide (f.general_id ≠ 0) || decide (f.type = t))) with
  | some i =>
    let f := L.getD i default
    if f.general_id ≠ 0 then FindFunctionExact L f.general_id t
    else (i : Int)
  | none => 0

/-- raw_actions_encoder.cc FindSelectionIndices: the positions, in
observation order, of the units whose tag is in the container. -/
def FindSelectionIndices (obs : List UnitR) (container : List Int) :
    List Int :=
  ((List.range obs.length).filter
    (fun i => container.contains (obs.getD i default).tag)).map
    (fun i => (Int.ofNat i))

/-- raw_actions_encoder.cc AgentCoordsToWorldCoords: 1-D pixel index back
to world coordinates (int division and modulus truncate toward zero). -/
def AgentCoordsToWorldCoords (cfg : EncoderCfg) (target_pos : Int) :
    ℚ × ℚ :=
  let x : ℚ := ((target_pos.tmod cfg.raw_resolution : Int) : ℚ) + 1 / 2
  let y : ℚ := ((target_pos.tdiv cfg.raw_resolution : Int) : ℚ) + 1 / 2
  let scale : ℚ := (cfg.raw_resolution : ℚ) /
    max (cfg.map_size_x : ℚ) (cfg.map_size_y : ℚ)
  (x / scale, (cfg.map_size_y : ℚ) - y / scale)

/-- raw_actions_encoder.cc WorldCoordsToAgentCoords: world position to
1-D pixel index; the cast to int truncates toward zero, and y is clamped
through max(0.5, position.y()). -/
def WorldCoordsToAgentCoords (cfg : EncoderCfg) (px py : ℚ) : Int :=
  let scale : ℚ := (cfg.raw_resolution : ℚ) /
    max (cfg.map_size_x : ℚ) (cfg.map_size_y : ℚ)
  let x : Int := rtrunc (scale * px)
  let y : Int := rtrunc (scale * ((cfg.map_size_y : ℚ) - max (1 / 2) py))
  cfg.raw_resolution * y + x

/-- raw_actions_encoder.cc MakeFunctionCall: the tensor map handed to the
agent; the selection vector is padded to max_selection_size with 0 for a
no-op and with max_unit_count otherwise, and the repeat entry is present
exactly when action repeat is enabled. -/
def MakeFunctionCall (cfg : EncoderCfg) (function_id world queued : Int)
    (unit_tags : List Int) (target_unit_tag rpt : Int) : TensorMap :=
  let pad : Int := if function_id = 0 then 0 else cfg.max_unit_count
  { function := some (MakeTensor function_id)
    world := some (MakeTensor world)
    queued := some (MakeTensor queued)
    unit_tags := some ⟨[cfg.max_selection_size],
      .int32s ((List.range cfg.max_selection_size.toNat).map
        (fun i => unit_tags.getD i pad))⟩
    target_unit_tag := some (MakeTensor target_unit_tag)
    «repeat» := if cfg.action_repeat then some (MakeTensor rpt) else none }

/-- The ability id Decode reads off an action when counting same-ability
actions: missing action_raw or unit_command submessages read as the proto
default 0. -/
def unitCommandAbilityId : Option ActionRaw → Int
  | some (.unitCommand a _ _ _ _) => a
  | _ => 0

/-- The number of actions in the step with the given unit-command
ability id. -/
def countSameAbility (allActions : List (Option ActionRaw))
    (ability : Int) : Nat :=
  (allActions.filter (fun a => decide (unitCommandAbilityId a = ability))).length

/-- What Decode does with one action of the request: skip it (continue),
abort on a CHECK, or return a tensor map. -/
inductive DecodeStep where
  | skip : DecodeStep
  | crash : DecodeStep
  | done : TensorMap → DecodeStep
deriving DecidableEq

/-- The tail of the Decode loop body shared by the three action kinds:
the num_action_types cut-off, the non-addressable-selection filter, the
empty-selection / out-of-range-target rejection (except for camera moves),
the optional shuffle, the invariant CHECKs, and the repeat bucket. -/
def DecodeFinish (cfg : EncoderCfg) (allActions : List (Option ActionRaw))
    (cmdAbility : Option Int) (isCameraMove : Bool)
    (function_idx world queued : Int) (unit_indices : List Int)
    (target_unit_index : Int) (shuffleFn : List Int → List Int) :
    DecodeStep :=
  if cfg.num_action_types ≤ function_idx then .skip
  else
    let unit_indices := unit_indices.filter
      (fun i => decide (i < cfg.max_unit_count))
    if ¬ isCameraMove ∧
        (unit_indices = [] ∨ cfg.max_unit_count ≤ target_unit_index) then
      .skip
    else
      let unit_indices :=
        if cfg.shuffle_unit_tags then shuffleFn unit_indices else unit_indices
      if 0 ≤ function_idx ∧ function_idx < cfg.num_action_types ∧
          0 ≤ world ∧ world < cfg.raw_resolution * cfg.raw_resolution ∧
          0 ≤ queued ∧ queued ≤ 1 ∧
          (∀ i ∈ unit_indices, 0 ≤ i ∧ i < cfg.max_unit_count) ∧
          0 ≤ target_unit_index then
        let num_actions : Nat :=
          match cmdAbility with
          | some a => countSameAbility allActions a
          | none => 1
        let num_actions := min num_actions 3
        .done (MakeFunctionCall cfg function_idx world queued unit_indices
          target_unit_index ((num_actions : Int) - 1))
      else .crash

/-- The Decode loop body for one action. -/
def DecodeOne (cfg : EncoderCfg) (L : List RawFunction)
    (allActions : List (Option ActionRaw)) (obs : List UnitR)
    (shuffleFn : List Int → List Int) : Option ActionRaw → DecodeStep
  | none => .skip
  | some (.unitCommand ability_id cmd_unit_tags queue_command
      target_unit_tag target_world_space_pos) =>
    let ftype : RawFunctionType :=
      if target_unit_tag.isSome then .RAW_CMD_UNIT
      else if target_world_space_pos.isSome then .RAW_CMD_PT
      else .RAW_CMD
    let function_idx := FindFunction L ability_id ftype
    let tgt : Option Int :=
      match target_unit_tag with
      | none => some 0
      | some t =>
        match (List.range obs.length).find?
            (fun i => decide ((obs.getD i default).tag = t)) with
        | some i => some (i : Int)
        | none => none
    match tgt with
    | none => .skip
    | some target_unit_index =>
      let world : Int :=
        match target_world_space_pos with
        | some p => WorldCoordsToAgentCoords cfg p.1 p.2
        | none => 0
      let unit_indices := FindSelectionIndices obs cmd_unit_tags
      let queued : Int := if queue_command then 1 else 0
      DecodeFinish cfg allActions (some ability_id) false function_idx
        world queued unit_indices target_unit_index shuffleFn
  | some (.cameraMove cx cy) =>
    let function_idx : Int :=
      ((L.findIdx (fun f => decide (f.type = .RAW_MOVE_CAMERA)) : Nat) : Int)
    if function_idx ≤ 0 then .crash
    else
      let world := WorldCoordsToAgentCoords cfg cx cy
      DecodeFinish cfg allActions none true function_idx world 0 [] 0
        shuffleFn
  | some (.toggleAutocast ability_id ac_unit_tags) =>
    let function_idx := FindFunction L ability_id .RAW_AUTOCAST
    let unit_indices := FindSelectionIndices obs ac_unit_tags
    DecodeFinish cfg allActions none false function_idx 0 0
      unit_indices 0 shuffleFn

/-- The Decode scan over the actions of the request; with no recognized
raw action left it produces the canonical no-op call. -/
def DecodeGo (cfg : EncoderCfg) (L : List RawFunction)
    (allActions : List (Option ActionRaw)) (obs : List UnitR)
    (shuffleFn : List Int → List Int) :
    List (Option ActionRaw) → Option TensorMap
  | [] => some (MakeFunctionCall cfg 0 0 0 [] 0 0)
  | a :: rest =>
    match DecodeOne cfg L allActions obs shuffleFn a with
    | .skip => DecodeGo cfg L allActions obs shuffleFn rest
    | .crash => none
    | .done t => some t

/-- raw_actions_encoder.cc RawActionsEncoder Decode.  The request is the
list of actions (none models an action without action_raw); shuffleFn
stands for the random shuffle and is consulted only when shuffling is
configured; none is a CHECK crash. -/
def Decode (cfg : EncoderCfg) (L : List RawFunction) (obs : List UnitR)
    (shuffleFn : List Int → List Int) (actions : List (Option ActionRaw)) :
    Option TensorMap :=
  DecodeGo cfg L actions obs shuffleFn actions

/-- How Encode ends: a structured absl InvalidArgumentError status, or a
fatal CHECK crash. -/
inductive EncodeError where
  | invalidArgument : EncodeError
  | fatal : EncodeError
deriving DecidableEq

/-- The repeat handling at the end of Encode: with action repeat enabled
the repeat argument is required and yields repeat + 1 copies, but only
RAW_CMD functions may actually repeat - every other type is reset to one
copy. -/
def EncodeAppendRepeats (cfg : EncoderCfg) (f : RawFunction)
    (action : TensorMap) (out : ActionRaw) :
    Except EncodeError (List ActionRaw) :=
  if cfg.action_repeat then
    match action.«repeat» with
    | none => .error .invalidArgument
    | some rt =>
      match ToScalar rt with
      | none => .error .fatal
      | some r =>
        let num_actions : Int := if f.type ≠ .RAW_CMD then 1 else r + 1
        .ok (List.replicate num_actions.toNat out)
  else
    .ok (List.replicate 1 out)

/-- raw_actions_encoder.cc RawActionsEncoder Encode. -/
def Encode (cfg : EncoderCfg) (L : List RawFunction) (obs : List UnitR)
    (action : TensorMap) : Except EncodeError (List ActionRaw) :=
  match action.function with
  | none => .error .invalidArgument
  | some ft =>
    match ToScalar ft with
    | none => .error .fatal
    | some m_action_index =>
      if m_action_index < 0 ∨ (L.length : Int) ≤ m_action_index then .ok []
      else
        let f := L.getD m_action_index.toNat default
        if f.type = .NO_OP then .ok []
        else if f.type = .RAW_MOVE_CAMERA then
          match action.world with
          | none => .error .invalidArgument
          | some wt =>
            match ToScalar wt with
            | none => .error .fatal
            | some w =>
              let p := AgentCoordsToWorldCoords cfg w
              .ok [.cameraMove p.1 p.2]
        else
          match action.unit_tags with
          | none => .error .invalidArgument
          | some ut =>
            match ToVector ut with
            | none => .error .fatal
            | some idxs =>
              let selected_tags :=
                LookupSelectedUnitTags obs idxs cfg.max_unit_count
              if f.type = .RAW_AUTOCAST then
                .ok [.toggleAutocast f.ability_id selected_tags]
              else
                match action.queued with
                | none => .error .invalidArgument
                | some qt =>
                  match ToScalar qt with
                  | none => .error .fatal
                  | some q =>
                    if f.type = .RAW_CMD_PT then
                      match action.world with
                      | none => .error .invalidArgument
                      | some wt =>
                        match ToScalar wt with
                        | none => .error .fatal
                        | some target_pos =>
                          let p := AgentCoordsToWorldCoords cfg target_pos
                          EncodeAppendRepeats cfg f action
                            (.unitCommand f.ability_id selected_tags
                              (decide (q ≠ 0)) none (some p))
                    else if f.type = .RAW_CMD_UNIT then
                      match action.target_unit_tag with
                      | none => .error .invalidArgument
                      | some tt =>
                        match ToScalar tt with
                        | none => .error .fatal
                        | some target_index =>
                          if target_index < 0 then .ok []
                          else
                            EncodeAppendRepeats cfg f action
                              (.unitCommand f.ability_id selected_tags
                                (decide (q ≠ 0))
                                (some (FindOriginalTag target_index obs))
                                none)
                    else
                      EncodeAppendRepeats cfg f action
                        (.unitCommand f.ability_id selected_tags
                          (decide (q ≠ 0)) none none)

/-! ## raw_converter.cc (episode state around Encode) -/

/-- The per-episode state RawConverter mutates after a successful encode:
last selected unit tags and last target (-1 when none). -/
structure EpisodeState where
  last_unit_tags : List Int
  last_target_unit_tag : Int
deriving DecidableEq

/-- raw_converter.cc ConvertAction state update: an error leaves the state
untouched; a successful encode whose first action is a unit command
replaces the selection set and the target. -/
def ConvertActionUpdate (st : EpisodeState)
    (result : Except EncodeError (List ActionRaw)) : EpisodeState :=
  match result with
  | .error _ => st
  | .ok acts =>
    match acts with
    | .unitCommand _ tags _ tgt _ :: _ =>
      { last_unit_tags := tags
        last_target_unit_tag := match tgt with | some t => t | none => -1 }
    | _ => st

/-- Modelled from the spec: the contents of the fixed raw-function table
(RawFunctions, a generated source) are not among the sources here.  The
spec describes the vocabulary - no-op, move-camera, command-to-point,
command-to-unit, quick command, autocast - so this representative table
holds one general function of each kind; it is used only to instantiate
witnesses and counterexamples. -/
def specRawFunctions : List RawFunction := [
  { label := "no_op", type := .NO_OP, ability_id := 0 },
  { label := "raw_move_camera", type := .RAW_MOVE_CAMERA, ability_id := 1 },
  { label := "attack_pt", type := .RAW_CMD_PT, ability_id := 2 },
  { label := "attack_unit", type := .RAW_CMD_UNIT, ability_id := 3 },
  { label := "train_quick", type := .RAW_CMD, ability_id := 4 },
  { label := "behavior_autocast", type := .RAW_AUTOCAST, ability_id := 5 }]

/-! ## map_util.cc, raw_camera.cc and convert_obs.cc (raw units tensor) -/

/-- map_util.cc WorldToMinimapPx: world position to minimap pixel; the
game y axis is flipped, both axes are scaled by resolution over the larger
map dimension, floored, and cast through ToInt32.  Square resolution
(x = y) as checked by the encoder. -/
def WorldToMinimapPx (px py : ℚ) (map_size_x map_size_y : Int)
    (raw_resolution : Int) : Int × Int :=
  let x : ℚ := px
  let y : ℚ := (map_size_y : ℚ) - py
  let max_dim : ℚ := max (map_size_x : ℚ) (map_size_y : ℚ)
  let scale : ℚ := (raw_resolution : ℚ) / max_dim
  (ToInt32Q ((⌊x * scale⌋ : Int) : ℚ), ToInt32Q ((⌊y * scale⌋ : Int) : ℚ))

/-- map_util.cc WorldToMinimapDistance. -/
def WorldToMinimapDistance (distance : ℚ) (map_size_x map_size_y : Int)
    (raw_resolution : Int) : Int :=
  let max_dim : ℚ := max (map_size_x : ℚ) (map_size_y : ℚ)
  ToInt32Q (distance * ((raw_resolution : ℚ) / max_dim))

/-- raw_camera.cc RawCamera: centre position and the four half-extents
(floats modelled as exact rationals). -/
structure RawCamera where
  pos_x : ℚ
  pos_y : ℚ
  left : ℚ
  right : ℚ
  top : ℚ
  bottom : ℚ
deriving DecidableEq

/-- raw_camera.cc RawCamera IsOnScreen: the point is within the camera
box. -/
def RawCamera.IsOnScreen (c : RawCamera) (x y : ℚ) : Bool :=
  decide (c.pos_x - c.left ≤ x) && decide (x ≤ c.pos_x + c.right) &&
  decide (c.pos_y - c.top ≤ y) && decide (y ≤ c.pos_y + c.bottom)

/-- raw_actions_encoder.cc AbilityIdToGameIdTable / RawAbilityToGameId:
the least table index carrying the ability id (rows are recorded only for
non-negative ability ids); 0 when there is none. -/
def RawAbilityToGameId (L : List RawFunction) (ability_id : Int) : Int :=
  let ids := (List.range L.length).filter
    (fun i => decide ((L.getD i default).ability_id = ability_id) &&
      decide (0 ≤ (L.getD i default).ability_id))
  match ids.min? with
  | some m => (m : Int)
  | none => 0

/-- convert_obs.cc kMaskedUnitTypeId. -/
def kMaskedUnitTypeId : Int := 254

/-- convert_obs.cc kUnitFeaturesToMask: the feature columns zeroed for a
visible off-screen enemy. -/
def kUnitFeaturesToMask : List Nat :=
  [2, 3, 4, 5, 6, 7, 8, 9, 14, 16, 19, 20, 21, 22, 23, 24, 25, 26, 27, 28,
   30, 31, 32, 33, 34, 36, 37, 38, 39, 40, 41, 42, 43, 44, 45]

/-- The fields of an SC2APIProtocol raw-observation unit that
RawUnitsFullVec reads.  Float fields are modelled as exact rationals;
orders are (ability_id, progress) pairs. -/
structure UnitObs where
  unit_type : Int := 0
  alliance : Int := 0
  health : ℚ := 0
  shield : ℚ := 0
  energy : ℚ := 0
  cargo_space_taken : Int := 0
  build_progress : ℚ := 0
  health_max : ℚ := 0
  shield_max : ℚ := 0
  energy_max : ℚ := 0
  display_type : Int := 0
  owner : Int := 0
  pos_x : ℚ := 0
  pos_y : ℚ := 0
  facing : ℚ := 0
  radius : ℚ := 0
  cloak : Int := 0
  is_selected : Bool := false
  is_blip : Bool := false
  is_powered : Bool := false
  mineral_contents : Int := 0
  vespene_contents : Int := 0
  cargo_space_max : Int := 0
  assigned_harvesters : Int := 0
  ideal_harvesters : Int := 0
  weapon_cooldown : ℚ := 0
  orders : List (Int × ℚ) := []
  tag : Int := 0
  is_hallucination : Bool := false
  buff_ids : List Int := []
  add_on_tag : Option Int := none
  is_active : Bool := false
  is_on_screen : Bool := false
  buff_duration_remain : Int := 0
  buff_duration_max : Int := 0
  attack_upgrade_level : Int := 0
  armor_upgrade_level : Int := 0
  shield_upgrade_level : Int := 0
deriving DecidableEq, Inhabited

/-- The tag_types hash map of RawUnitsFullVec: unit type by tag, last
writer wins (hash map assignment in iteration order). -/
def tagTypeLookup (units : List UnitObs) (t : Int) : Option Int :=
  match units.reverse.find? (fun u => decide (u.tag = t)) with
  | some u => some u.unit_type
  | none => none

/-- RawUnitsFullVec is_on_screen: through the virtual camera when
configured, else the proto flag. -/
def unitIsOnScreen (camera : Option RawCamera) (u : UnitObs) : Bool :=
  match camera with
  | some c => c.IsOnScreen u.pos_x u.pos_y
  | none => u.is_on_screen

/-- Sequential (column, value) writes on a row, as the C++ writes the
matrix row cell by cell. -/
def applyWrites (row : List Int) (ws : List (Nat × Int)) : List Int :=
  ws.foldl (fun r w => r.set w.1 w.2) row

/-- The writes of the main RawUnitsFullVec loop body for one unit, in
program order, before the off-screen enemy masking: the fixed feature
columns, the num_unit_features-gated columns, and the two bookkeeping
columns (selection and target bits) at num_unit_features and
num_unit_features + 1. -/
def unitRowWrites (units : List UnitObs) (u : UnitObs)
    (last_unit_tags : List Int) (last_target_unit_tag : Int)
    (is_raw : Bool) (map_size_x map_size_y raw_resolution : Int)
    (num_unit_features : Nat) (num_action_types : Int)
    (L : List RawFunction) (camera : Option RawCamera) :
    List (Nat × Int) :=
  [(0, u.unit_type),
   (1, u.alliance),
   (2, ToInt32Q u.health),
   (3, ToInt32Q u.shield),
   (4, ToInt32Q u.energy),
   (5, u.cargo_space_taken),
   (6, ToInt32Q (u.build_progress * 100)),
   (7, if 0 < u.health_max then ToInt32Q (u.health / u.health_max * 255)
     else 0),
   (8, if 0 < u.shield_max then ToInt32Q (u.shield / u.shield_max * 255)
     else 0),
   (9, if 0 < u.energy_max then ToInt32Q (u.energy / u.energy_max * 255)
     else 0),
   (10, u.display_type),
   (11, u.owner),
   (12, (WorldToMinimapPx u.pos_x u.pos_y map_size_x map_size_y
     raw_resolution).1),
   (13, (WorldToMinimapPx u.pos_x u.pos_y map_size_x map_size_y
     raw_resolution).2),
   (14, ToInt32Q u.facing),
   (15, WorldToMinimapDistance u.radius map_size_x map_size_y
     raw_resolution),
   (16, u.cloak),
   (17, if u.is_selected then 1 else 0),
   (18, if u.is_blip then 1 else 0),
   (19, if u.is_powered then 1 else 0),
   (20, u.mineral_contents),
   (21, u.vespene_contents),
   (22, u.cargo_space_max),
   (23, u.assigned_harvesters),
   (24, u.ideal_harvesters),
   (25, ToInt32Q u.weapon_cooldown),
   (26, (u.orders.length : Int)),
   (27, if 0 < u.orders.length then
     GeneralOrderId L (RawAbilityToGameId L (u.orders.getD 0 default).1)
       num_action_types else 0),
   (28, if 1 < u.orders.length then
     GeneralOrderId L (RawAbilityToGameId L (u.orders.getD 1 default).1)
       num_action_types else 0),
   (29, if is_raw then u.tag else 0)] ++
  (if 33 < num_unit_features then
    [(30, if u.is_hallucination then 1 else 0),
     (31, u.buff_ids.getD 0 0),
     (32, u.buff_ids.getD 1 0),
     (33, match u.add_on_tag with
       | some t =>
         match tagTypeLookup units t with
         | some ty => ty
         | none => 0
       | none => 0)]
   else []) ++
  (if 34 < num_unit_features then
    [(34, if u.is_active then 1 else 0)] else []) ++
  (if 35 < num_unit_features then
    [(35, if unitIsOnScreen camera u then 1 else 0)] else []) ++
  (if 39 < num_unit_features then
    ((if 1 ≤ u.orders.length then
       [(36, ToInt32Q ((u.orders.getD 0 default).2 * 100))] else []) ++
     (if 2 ≤ u.orders.length then
       [(37, ToInt32Q ((u.orders.getD 1 default).2 * 100))] else []) ++
     [(38, if 2 < u.orders.length then
        GeneralOrderId L (RawAbilityToGameId L (u.orders.getD 2 default).1)
          num_action_types else 0),
      (39, if 3 < u.orders.length then
        GeneralOrderId L (RawAbilityToGameId L (u.orders.getD 3 default).1)
          num_action_types else 0)])
   else []) ++
  (if 45 < num_unit_features then
    [(41, u.buff_duration_remain),
     (42, u.buff_duration_max),
     (43, u.attack_upgrade_level),
     (44, u.armor_upgrade_level),
     (45, u.shield_upgrade_level)]
   else []) ++
  [(num_unit_features, if last_unit_tags.contains u.tag then 1 else 0),
   (num_unit_features + 1,
     if last_target_unit_tag = u.tag then 1 else 0)]

/-- The unmasked row of RawUnitsFullVec for one unit: the zero row of
width num_unit_features + 2, then the writes in program order. -/
def unitRowBase (units : List UnitObs) (u : UnitObs)
    (last_unit_tags : List Int) (last_target_unit_tag : Int)
    (is_raw : Bool) (map_size_x map_size_y raw_resolution : Int)
    (num_unit_features : Nat) (num_action_types : Int)
    (L : List RawFunction) (camera : Option RawCamera) : List Int :=
  applyWrites (List.replicate (num_unit_features + 2) 0)
    (unitRowWrites units u last_unit_tags last_target_unit_tag is_raw
      map_size_x map_size_y raw_resolution num_unit_features
      num_action_types L camera)

/-- convert_obs.cc RawUnitsFullVec loop body for one unit including the
off-screen enemy masking: a cloaked (cloak = 1) masked enemy is replaced
by an all-zero row, keeping the tag in column 29 when is_raw; a visible
(display_type = 1) masked enemy gets the masked type sentinel in column 0
and zeros on the in-range kUnitFeaturesToMask columns. -/
def rawUnitRow (units : List UnitObs) (u : UnitObs)
    (last_unit_tags : List Int) (last_target_unit_tag : Int)
    (is_raw : Bool) (mask_offscreen_enemies : Bool)
    (map_size_x map_size_y raw_resolution : Int)
    (num_unit_features : Nat) (num_action_types : Int)
    (L : List RawFunction) (camera : Option RawCamera) : List Int :=
  let row := unitRowBase units u last_unit_tags last_target_unit_tag
    is_raw map_size_x map_size_y raw_resolution num_unit_features
    num_action_types L camera
  let is_on_screen := unitIsOnScreen camera u
  let mask_enemy := mask_offscreen_enemies && decide (u.alliance = 4) &&
    !is_on_screen
  let row :=
    if mask_enemy && decide (u.cloak = 1) then
      (if is_raw then
        (List.replicate (num_unit_features + 2) 0).set 29 u.tag
      else List.replicate (num_unit_features + 2) 0)
    else row
  if mask_enemy && decide (u.display_type = 1) then
    kUnitFeaturesToMask.foldl
      (fun r f => if f < num_unit_features + 2 then r.set f 0 else r)
      (row.set 0 kMaskedUnitTypeId)
  else row

/-! ## Theorems -/

theorem buildTableFrom_not_mem (l : List Int) (s : Nat) (m : Int → Option Nat)
    (k : Int) (hk : k ∉ l) : buildTableFrom s l m k = m k := by
  induction l generalizing s m with
  | nil => rfl
  | cons a rest ih =>
    have hka : k ≠ a := fun h => hk (h ▸ List.mem_cons_self a rest)
    have hkrest : k ∉ rest := fun h => hk (List.mem_cons_of_mem a h)
    unfold buildTableFrom
    rw [ih (s + 1) _ hkrest]
    unfold updateMap
    rw [if_neg hka]

theorem buildTableFrom_get (l : List Int) (s : Nat) (m : Int → Option Nat)
    (i : Nat) (hi : i < l.length) (hnd : l.Nodup) :
    buildTableFrom s l m (l.getD i 0) = some (s + i + 1) := by
  induction l generalizing s m i with
  | nil => exact absurd hi (Nat.not_lt_zero i)
  | cons a rest ih =>
    rcases List.nodup_cons.mp hnd with ⟨hna, hndrest⟩
    cases i with
    | zero =>
      show buildTableFrom (s + 1) rest (updateMap m a (s + 1)) a = some (s + 0 + 1)
      rw [buildTableFrom_not_mem rest (s + 1) _ a hna]
      unfold updateMap
      rw [if_pos rfl]
    | succ i =>
      have hirest : i < rest.length := by
        rw [List.length_cons] at hi
        omega
      show buildTableFrom (s + 1) rest (updateMap m a (s + 1)) (rest.getD i 0) =
        some (s + (i + 1) + 1)
      rw [ih (s + 1) _ i hirest hndrest]
      congr 1
      omega

theorem buildTable_get (list : List Int) (i : Nat) (hi : i < list.length)
    (hnd : list.Nodup) : BuildTable list (list.getD i 0) = some (i + 1) := by
  unfold BuildTable
  rw [buildTableFrom_get list 0 _ i hi hnd]
  congr 1
  omega

theorem buildTable_zero (list : List Int) (h0 : (0 : Int) ∉ list) :
    BuildTable list 0 = some 0 := by
  unfold BuildTable
  rw [buildTableFrom_not_mem list 0 _ 0 h0]
  unfold updateMap
  rw [if_pos rfl]

theorem find?_eq_none_of_no_key (red : List (Int × Int)) (id : Int)
    (h : ∀ c, (id, c) ∉ red) :
    red.find? (fun p => decide (p.1 = id)) = none := by
  rw [List.find?_eq_none]
  intro x hx
  simp only [decide_eq_true_eq]
  intro hfst
  exact h x.2 (by rw [← hfst]; exact hx)

theorem no_key_of_all (red : List (Int × Int)) (id : Int)
    (h : red.all (fun p => decide (p.1 ≠ id)) = true) : ∀ c, (id, c) ∉ red := by
  intro c hc
  have hx := List.all_eq_true.mp h _ hc
  simp only [decide_eq_true_eq] at hx
  exact hx rfl

/-- C4 (amended): BuildTable maps the i-th id of any duplicate-free
reference list to index i + 1 and keeps 0 mapped to 0; every id of the unit
reference list that is not a key of the redundancy pre-map round-trips
through PySc2ToUint8 and Uint8ToPySc2; and every id in the redundancy
pre-map looks up to the table index of its canonical substitute. -/
theorem claim_c4_buildTable :
    (∀ list : List Int, list.Nodup → (0 : Int) ∉ list →
      (∀ i, i < list.length → BuildTable list (list.getD i 0) = some (i + 1)) ∧
      BuildTable list 0 = some 0) ∧
    (∀ i, i < kUnitsList.length →
      (∀ c, (kUnitsList.getD i 0, c) ∉ RedundantUnits) →
      PySc2ToUint8 (kUnitsList.getD i 0) = some (i + 1) ∧
      Uint8ToPySc2 ((i : Int) + 1) = some (kUnitsList.getD i 0)) ∧
    (∀ p ∈ RedundantUnits,
      PySc2ToUint8 p.1 = PySc2ToUint8 p.2 ∧ PySc2ToUint8 p.2 ≠ none) := by
  refine ⟨?_, ?_, ?_⟩
  · intro list hnd h0
    exact ⟨fun i hi => buildTable_get list i hi hnd, buildTable_zero list h0⟩
  · intro i hi hkey
    have hnd : kUnitsList.Nodup := by decide
    constructor
    · unfold PySc2ToUint8 LookUp
      rw [find?_eq_none_of_no_key RedundantUnits _ hkey]
      exact buildTable_get kUnitsList i hi hnd
    · unfold Uint8ToPySc2
      rw [if_pos (by constructor <;> omega)]
      congr 1
  · decide

/-- Counterexample for C4 as stated: InhibitorZoneMedium is in the unit
reference list, yet it is also a key of the redundancy pre-map, so it fails
to round-trip - it comes back as InhibitorZoneSmall. -/
theorem claim_c4_counterexample :
    Neutral.InhibitorZoneMedium ∈ kUnitsList ∧
    Uint8ToPySc2 (((PySc2ToUint8 Neutral.InhibitorZoneMedium).getD 0 : Nat) : Int) =
      some Neutral.InhibitorZoneSmall ∧
    Neutral.InhibitorZoneSmall ≠ Neutral.InhibitorZoneMedium := by
  refine ⟨by decide, by decide, by decide⟩

/-- Witness for C4: the generic BuildTable law at a two-element list, the
round trip at the head of the unit list (Colossus), and the redundant
lookup at the first pre-map pair. -/
theorem claim_c4_buildTable_witness :
    BuildTable [5, 7] 7 = some 2 ∧ BuildTable [5, 7] 0 = some 0 ∧
    PySc2ToUint8 Protoss.Colossus = some 1 ∧
    Uint8ToPySc2 1 = some Protoss.Colossus ∧
    PySc2ToUint8 Neutral.DestructibleIce4x4 =
      PySc2ToUint8 Neutral.DestructibleRockEx14x4 := by
  have hgen := (claim_c4_buildTable.1 [5, 7] (by decide) (by decide))
  have hrt := claim_c4_buildTable.2.1 0 (by decide)
    (no_key_of_all RedundantUnits Protoss.Colossus (by decide))
  have hred := claim_c4_buildTable.2.2 (Neutral.DestructibleIce4x4,
    Neutral.DestructibleRockEx14x4) (by decide)
  refine ⟨?_, hgen.2, ?_, ?_, hred.1⟩
  · have := hgen.1 1 (by decide)
    exact this
  · exact hrt.1
  · exact hrt.2

theorem generalToGeneral_self (L : List RawFunction) (i : Nat)
    (hi : i < L.length) (hgen : (L.getD i default).general_id = 0)
    (huniq : ∀ j, j < L.length → j ≠ i → (L.getD j default).general_id = 0 →
      (L.getD j default).type ≠ (L.getD i default).type ∨
      (L.getD j default).ability_id ≠ (L.getD i default).ability_id) :
    generalToGeneralGameId L (L.getD i default).type
      (L.getD i default).ability_id = some i := by
  unfold generalToGeneralGameId
  rw [List.findIdx?_eq_some_iff_getElem]
  refine ⟨hi, ?_, ?_⟩
  · have hgd : L[i] = L.getD i default := (List.getD_eq_getElem L default hi).symm
    rw [hgd]
    simp only [Bool.and_eq_true, decide_eq_true_eq]
    exact ⟨⟨hgen, trivial⟩, trivial⟩
  · intro j hji
    have hj : j < L.length := Nat.lt_trans hji hi
    have hne : j ≠ i := Nat.ne_of_lt hji
    have hgd : L[j] = L.getD j default := (List.getD_eq_getElem L default hj).symm
    rw [hgd]
    simp only [Bool.and_eq_true, decide_eq_true_eq]
    rintro ⟨⟨hg0, htyp⟩, habl⟩
    rcases huniq j hj hne hg0 with h | h
    · exact h htyp
    · exact h habl

/-- C10: GeneralOrderId returns 0 for an order id outside the fixed table;
returns 0 when the resolved general index is at or above the configured
action-type count; and otherwise returns the index of the general
counterpart - the index of the general entry sharing (type, general_id) for
a specific function, and the function's own index when it is itself general
(given the no-duplicate-generals invariant the constructor CHECKs). -/
theorem claim_c10_generalOrderId (L : List RawFunction)
    (order_id num_action_types : Int) :
    ((order_id < 0 ∨ (L.length : Int) ≤ order_id) →
      GeneralOrderId L order_id num_action_types = 0) ∧
    (num_action_types ≤ OrderIdToGeneralLookup L order_id →
      GeneralOrderId L order_id num_action_types = 0) ∧
    (∀ i : Nat, order_id = i → i < L.length →
      (L.getD i default).general_id = 0 →
      (∀ j, j < L.length → j ≠ i → (L.getD j default).general_id = 0 →
        (L.getD j default).type ≠ (L.getD i default).type ∨
        (L.getD j default).ability_id ≠ (L.getD i default).ability_id) →
      (i : Int) < num_action_types →
      GeneralOrderId L order_id num_action_types = i) ∧
    (∀ i j : Nat, order_id = i → i < L.length →
      (L.getD i default).general_id ≠ 0 →
      generalToGeneralGameId L (L.getD i default).type
        (L.getD i default).general_id = some j →
      (j : Int) < num_action_types →
      GeneralOrderId L order_id num_action_types = j) := by
  refine ⟨?_, ?_, ?_, ?_⟩
  · intro hout
    have hlk : OrderIdToGeneralLookup L order_id = 0 := by
      unfold OrderIdToGeneralLookup
      rw [if_neg]
      intro hcontra
      rcases hout with h | h
      · omega
      · omega
    unfold GeneralOrderId
    rw [hlk]
    by_cases h : (0 : Int) < num_action_types
    · rw [if_pos h]
    · rw [if_neg h]
  · intro hge
    unfold GeneralOrderId
    rw [if_neg (not_lt.mpr hge)]
  · intro i hoi hi hgen huniq hlt
    subst hoi
    have hlk : OrderIdToGeneralLookup L i = i := by
      unfold OrderIdToGeneralLookup
      rw [if_pos (by constructor <;> omega)]
      have htn : ((i : Int)).toNat = i := Int.toNat_ofNat i
      rw [htn]
      unfold gameIdToGeneralGameId
      simp only [hgen, if_pos]
      rw [generalToGeneral_self L i hi hgen huniq]
      rfl
    unfold GeneralOrderId
    rw [hlk, if_pos hlt]
  · intro i j hoi hi hspec hfind hlt
    subst hoi
    have hlk : OrderIdToGeneralLookup L i = j := by
      unfold OrderIdToGeneralLookup
      rw [if_pos (by constructor <;> omega)]
      have htn : ((i : Int)).toNat = i := Int.toNat_ofNat i
      rw [htn]
      unfold gameIdToGeneralGameId
      simp only [if_neg hspec]
      rw [hfind]
      rfl
    unfold GeneralOrderId
    rw [hlk, if_pos hlt]

/-- Witness for C10 on a two-entry table: a general move entry at index 0
resolves to itself; a specific variant at index 1 resolves to index 0; an
out-of-table id resolves to 0; and an at-or-above-count general index is
clamped to 0. -/
theorem claim_c10_generalOrderId_witness :
    GeneralOrderId [{ type := .RAW_CMD_PT, ability_id := 16 },
      { type := .RAW_CMD_PT, ability_id := 17, general_id := 16 }] 0 2 = 0 ∧
    GeneralOrderId [{ type := .RAW_CMD_PT, ability_id := 16 },
      { type := .RAW_CMD_PT, ability_id := 17, general_id := 16 }] 1 2 = 0 ∧
    GeneralOrderId [{ type := .RAW_CMD_PT, ability_id := 16 },
      { type := .RAW_CMD_PT, ability_id := 17, general_id := 16 }] 5 2 = 0 ∧
    GeneralOrderId [{ type := .RAW_CMD_PT, ability_id := 16 },
      { type := .RAW_CMD_PT, ability_id := 17, general_id := 16 }] 0 0 = 0 := by
  refine ⟨?_, ?_, ?_, ?_⟩
  · exact (claim_c10_generalOrderId _ 0 2).2.2.1 0 rfl (by decide) (by decide)
      (by decide) (by decide)
  · exact (claim_c10_generalOrderId _ 1 2).2.2.2 1 0 rfl (by decide) (by decide)
      (by decide) (by decide)
  · exact (claim_c10_generalOrderId _ 5 2).1 (by decide)
  · exact (claim_c10_generalOrderId _ 0 0).2.1 (by decide)

theorem byteBitsMSB_length (c : Nat) : (byteBitsMSB c).length = 8 := by
  unfold byteBitsMSB
  rw [List.length_map, List.length_range]

theorem byteBitsMSB_getD (c b : Nat) (hb : b < 8) :
    (byteBitsMSB c).getD b 0 = (if c.testBit (7 - b) then 1 else 0) := by
  have hlen : b < (byteBitsMSB c).length := by rw [byteBitsMSB_length]; exact hb
  rw [List.getD_eq_getElem _ _ hlen]
  unfold byteBitsMSB
  rw [List.getElem_map]
  congr 1
  rw [List.getElem_range]

theorem flatMap_byteBits_length (l : List Nat) :
    (l.flatMap byteBitsMSB).length = 8 * l.length := by
  induction l with
  | nil => rfl
  | cons c rest ih =>
    rw [List.flatMap_cons, List.length_append, byteBitsMSB_length, ih,
      List.length_cons]
    ring

theorem flatMap_byteBits_getD (l : List Nat) (j b : Nat) (hj : j < l.length)
    (hb : b < 8) :
    (l.flatMap byteBitsMSB).getD (8 * j + b) 0 =
      (byteBitsMSB (l.getD j 0)).getD b 0 := by
  induction l generalizing j with
  | nil => exact absurd hj (Nat.not_lt_zero j)
  | cons c rest ih =>
    rw [List.flatMap_cons]
    cases j with
    | zero =>
      simp only [Nat.mul_zero, Nat.zero_add]
      rw [List.getD_append _ _ _ _ (by rw [byteBitsMSB_length]; exact hb)]
      rfl
    | succ j =>
      have hrest : j < rest.length := by
        rw [List.length_cons] at hj
        omega
      have hidx : 8 * (j + 1) + b = (byteBitsMSB c).length + (8 * j + b) := by
        rw [byteBitsMSB_length]
        ring
      rw [hidx, List.getD_append_right _ _ _ _ (Nat.le_add_right _ _),
        Nat.add_sub_cancel_left]
      exact ih j hrest

/-- C9: for a 1-bit plane whose byte count times 8 equals width times
height, EncodeImageData produces the row-major pixel buffer in which byte j
supplies pixels 8j..8j+7, most significant bit first; bits_per_pixel = 0
with no transform is an accepted no-op; any bits_per_pixel outside
0, 1, 8, 32 is fatal. -/
theorem claim_c9_encodeImageData (img : ImageData)
    (transform : Option (Int → Int)) :
    (img.bits_per_pixel = 1 → transform = none → 0 < img.ysize →
      (img.data.length : Int) * 8 = img.xsize * img.ysize →
      ∃ pixels, EncodeImageData img transform = .ok pixels ∧
        pixels.length = 8 * img.data.length ∧
        ((pixels.length : Int) = img.xsize * img.ysize) ∧
        (∀ j b : Nat, j < img.data.length → b < 8 →
          pixels.getD (8 * j + b) 0 =
            (if (img.data.getD j 0).testBit (7 - b) then 1 else 0))) ∧
    (img.bits_per_pixel = 0 → transform = none →
      EncodeImageData img transform = .noop) ∧
    (img.bits_per_pixel ≠ 0 → img.bits_per_pixel ≠ 1 → img.bits_per_pixel ≠ 8 →
      img.bits_per_pixel ≠ 32 → EncodeImageData img transform = .fatal) := by
  refine ⟨?_, ?_, ?_⟩
  · intro hbpp htr hy hcount
    refine ⟨img.data.flatMap byteBitsMSB, ?_, ?_, ?_, ?_⟩
    · unfold EncodeImageData
      rw [if_pos hbpp, htr]
      simp only [Option.isSome_none, Bool.false_eq_true, if_false]
      unfold EncodeImageData1Bit
      rw [if_pos ⟨hy, hcount⟩]
    · exact flatMap_byteBits_length img.data
    · rw [flatMap_byteBits_length img.data]
      push_cast
      rw [← hcount]
      ring
    · intro j b hj hb
      rw [flatMap_byteBits_getD img.data j b hj hb, byteBitsMSB_getD _ b hb]
  · intro hbpp htr
    unfold EncodeImageData
    rw [if_neg (by rw [hbpp]; decide), if_neg (by rw [hbpp]; decide),
      if_neg (by rw [hbpp]; decide), if_pos hbpp, htr]
    simp only [Option.isSome_none, Bool.false_eq_true, if_false]
  · intro h0 h1 h8 h32
    unfold EncodeImageData
    rw [if_neg h1, if_neg h8, if_neg h32, if_neg h0]

/-- Witness for C9: a 2 by 4 one-bit plane from the single byte 0xB3
decodes most-significant-bit-first; bits_per_pixel 0 is a no-op;
bits_per_pixel 7 is fatal. -/
theorem claim_c9_encodeImageData_witness :
    EncodeImageData ⟨2, 4, 1, [179]⟩ none = .ok [1, 0, 1, 1, 0, 0, 1, 1] ∧
    EncodeImageData ⟨0, 0, 0, []⟩ none = .noop ∧
    EncodeImageData ⟨1, 1, 7, [0]⟩ none = .fatal := by
  refine ⟨?_, ?_, ?_⟩
  · obtain ⟨pixels, hok, hlen, hleni, hbits⟩ :=
      (claim_c9_encodeImageData ⟨2, 4, 1, [179]⟩ none).1 rfl rfl
        (by decide) (by decide)
    rw [hok]
    congr 1
    have h179 : ([179] : List Nat).getD 0 0 = 179 := rfl
    have hpl : pixels.length = 8 := by rw [hlen]; rfl
    apply List.ext_getElem
    · rw [hpl]; rfl
    · intro n hn hn8
      have hnlt : n < 8 := by rw [hpl] at hn; exact hn
      have hgd : pixels.getD (8 * 0 + n) 0 =
          (if (179 : Nat).testBit (7 - n) then 1 else 0) := by
        rw [← h179]
        exact hbits 0 n (by decide) hnlt
      rw [Nat.mul_zero, Nat.zero_add] at hgd
      rw [← List.getD_eq_getElem pixels 0 hn, hgd]
      interval_cases n <;> rfl
  · exact (claim_c9_encodeImageData _ none).2.1 rfl rfl
  · exact (claim_c9_encodeImageData _ none).2.2 (by decide) (by decide)
      (by decide) (by decide)

theorem rtrunc_intCast (n : Int) : rtrunc (n : ℚ) = n := by
  unfold rtrunc
  rcases le_or_lt 0 (n : ℚ) with h | h
  · rw [if_pos h, Int.floor_intCast]
  · rw [if_neg (not_le.mpr h), Int.ceil_intCast]

theorem log_le_iff_lt_pow {q : ℚ} (hq : 0 < q) :
    (Int.log 2 q + 1 ≤ 31) ↔ q < ((2 : ℚ) ^ (31 : ℕ)) := by
  have h2 : (1 : ℕ) < 2 := by norm_num
  have := Int.lt_zpow_iff_log_lt (b := 2) (x := (31 : ℤ)) (r := q) h2 hq
  constructor
  · intro h
    have hlt : Int.log 2 q < 31 := by omega
    have := this.mpr hlt
    calc q < ((2 : ℕ) : ℚ) ^ (31 : ℤ) := this
    _ = (2 : ℚ) ^ (31 : ℕ) := by norm_num
  · intro h
    have : q < ((2 : ℕ) : ℚ) ^ (31 : ℤ) := by
      calc q < (2 : ℚ) ^ (31 : ℕ) := h
      _ = ((2 : ℕ) : ℚ) ^ (31 : ℤ) := by norm_num
    have hlog := (Int.lt_zpow_iff_log_lt (b := 2) h2 hq).mp this
    omega

/-- C2: ToInt32 truncates whenever the truncation is representable in
int32, and yields INT32_MIN (not INT32_MAX) for NaN, for the infinities and
for any finite value whose truncation falls outside the int32 range. -/
theorem claim_c2_toInt32 (v : FloatVal) :
    (∀ q : ℚ, v = .finite q → int32Min ≤ rtrunc q → rtrunc q ≤ int32Max →
      ToInt32 v = rtrunc q) ∧
    ((v = .nan ∨ v = .posInf ∨ v = .negInf ∨
      (∃ q : ℚ, v = .finite q ∧ (rtrunc q < int32Min ∨ int32Max < rtrunc q))) →
      ToInt32 v = int32Min) := by
  constructor
  · intro q hv hlo hhi
    subst hv
    show ToInt32 (.finite q) = rtrunc q
    simp only [ToInt32]
    by_cases hcond : ((int32Min : ℚ) ≤ q) ∧ SmallerThanOrEqualToIntMax (.finite q) = true
    · rw [if_pos hcond]
    · rw [if_neg hcond]
      rcases not_and_or.mp hcond with hwl | hsm
      · -- q < INT32_MIN as a rational, yet its truncation is ≥ INT32_MIN:
        -- then q is negative with ceiling exactly INT32_MIN.
        have hqlt : q < (int32Min : ℚ) := not_le.mp hwl
        have hqneg : q < 0 := by
          apply lt_of_lt_of_le hqlt
          have : (int32Min : ℚ) ≤ (0 : ℚ) := by
            norm_num [int32Min]
          exact this
        have hr : rtrunc q = ⌈q⌉ := by
          unfold rtrunc
          rw [if_neg (not_le.mpr hqneg)]
        have hle : ⌈q⌉ ≤ int32Min := Int.ceil_le.mpr (le_of_lt hqlt)
        rw [hr] at hlo hhi ⊢
        omega
      · -- SmallerThanOrEqualToIntMax is false: q > 0 and q ≥ 2^31, so the
        -- floor is above INT32_MAX, contradicting the hypothesis.
        exfalso
        have hq0 : ¬ q ≤ 0 := by
          by_contra hq0
          apply hsm
          simp only [SmallerThanOrEqualToIntMax]
          rw [if_pos hq0]
        have hqpos : 0 < q := not_le.mp hq0
        have hlarge : ¬ (Int.log 2 q + 1 ≤ 31) := by
          intro hcontra
          apply hsm
          simp only [SmallerThanOrEqualToIntMax]
          rw [if_neg hq0]
          exact decide_eq_true hcontra
        have hge : ((2 : ℚ) ^ (31 : ℕ)) ≤ q := by
          by_contra hlt
          exact hlarge ((log_le_iff_lt_pow hqpos).mpr (not_le.mp hlt))
        have hr : rtrunc q = ⌊q⌋ := by
          unfold rtrunc
          rw [if_pos (le_of_lt hqpos)]
        have hfl : (2 ^ 31 : Int) ≤ ⌊q⌋ := by
          apply Int.le_floor.mpr
          calc ((2 ^ 31 : Int) : ℚ) = (2 : ℚ) ^ (31 : ℕ) := by norm_num
          _ ≤ q := hge
        rw [hr] at hhi
        simp only [int32Max] at hhi
        omega
  · intro h
    rcases h with h | h | h | ⟨q, hv, hout⟩
    · subst h; rfl
    · subst h; rfl
    · subst h; rfl
    · subst hv
      show ToInt32 (.finite q) = int32Min
      simp only [ToInt32]
      rcases hout with hlt | hgt
      · -- truncation below INT32_MIN forces q itself below INT32_MIN
        have hqneg : q < 0 := by
          by_contra hge
          have hge : 0 ≤ q := not_lt.mp hge
          have : rtrunc q = ⌊q⌋ := by unfold rtrunc; rw [if_pos hge]
          rw [this] at hlt
          have : (0 : Int) ≤ ⌊q⌋ := Int.floor_nonneg.mpr hge
          simp only [int32Min] at hlt
          omega
        have hr : rtrunc q = ⌈q⌉ := by
          unfold rtrunc; rw [if_neg (not_le.mpr hqneg)]
        rw [hr] at hlt
        have : q < (int32Min : ℚ) := by
          have hysub : q ≤ (( ⌈q⌉ : ℚ)) := Int.le_ceil q
          have : ((⌈q⌉ : ℚ)) < ((int32Min : ℚ)) := by exact_mod_cast hlt
          linarith
        rw [if_neg]
        intro hcontra
        exact absurd hcontra.1 (not_le.mpr this)
      · -- truncation above INT32_MAX forces q ≥ 2^31
        have hqpos : 0 < q := by
          by_contra hle
          have hle : q ≤ 0 := not_lt.mp hle
          rcases le_or_lt 0 q with hge | hneg
          · have hq0 : q = 0 := le_antisymm hle hge
            rw [hq0] at hgt
            exact absurd hgt (by decide)
          · have hr : rtrunc q = ⌈q⌉ := by
              unfold rtrunc; rw [if_neg (not_le.mpr hneg)]
            rw [hr] at hgt
            have : ⌈q⌉ ≤ 0 := Int.ceil_le.mpr (by exact_mod_cast hle)
            simp only [int32Max] at hgt
            omega
        have hr : rtrunc q = ⌊q⌋ := by
          unfold rtrunc; rw [if_pos (le_of_lt hqpos)]
        rw [hr] at hgt
        have hq31 : ((2 : ℚ) ^ (31 : ℕ)) ≤ q := by
          have hfl : (2 ^ 31 : Int) ≤ ⌊q⌋ := by
            simp only [int32Max] at hgt
            omega
          have := Int.floor_le q
          calc ((2 : ℚ) ^ (31 : ℕ)) = ((2 ^ 31 : Int) : ℚ) := by norm_num
          _ ≤ ((⌊q⌋ : ℚ)) := by exact_mod_cast hfl
          _ ≤ q := this
        rw [if_neg]
        intro hcontra
        have hsm := hcontra.2
        simp only [SmallerThanOrEqualToIntMax] at hsm
        rw [if_neg (not_le.mpr hqpos)] at hsm
        have := of_decide_eq_true hsm
        exact absurd ((log_le_iff_lt_pow hqpos).mp this) (not_lt.mpr hq31)

/-- Witness for C2 at concrete inputs: 3 truncates to 3; NaN maps to
INT32_MIN. -/
theorem claim_c2_toInt32_witness :
    ToInt32 (.finite 3) = 3 ∧ ToInt32 .nan = int32Min := by
  constructor
  · have h := (claim_c2_toInt32 (.finite 3)).1 3 rfl (by decide) (by decide)
    have hr : rtrunc 3 = 3 := by decide
    rw [h, hr]
  · exact (claim_c2_toInt32 .nan).2 (Or.inl rfl)



/-! ### Raw action codec theorems -/

theorem lookupSelectedUnitTags_spec (obs : List UnitR) (maxIdx : Int)
    (hmax : 0 < maxIdx) (indices : List Int) :
    LookupSelectedUnitTags obs indices maxIdx =
      ((indices.takeWhile (fun i => decide (0 ≤ i))).filter
        (fun i => decide (i ≠ maxIdx))).map (fun i => FindOriginalTag i obs) := by
  induction indices with
  | nil => rfl
  | cons index rest ih =>
    by_cases hs : index = maxIdx
    · rw [LookupSelectedUnitTags, if_pos hs, ih,
        List.takeWhile_cons_of_pos (by simp only [decide_eq_true_eq]; omega),
        List.filter_cons]
      rw [if_neg (by simp only [decide_eq_true_eq]; exact fun hcon => hcon hs)]
    · by_cases hneg : index < 0
      · rw [LookupSelectedUnitTags, if_neg hs, if_pos hneg,
          List.takeWhile_cons_of_neg (by simp only [decide_eq_true_eq]; omega)]
        rfl
      · rw [LookupSelectedUnitTags, if_neg hs, if_neg hneg, ih,
          List.takeWhile_cons_of_pos (by simp only [decide_eq_true_eq]; omega),
          List.filter_cons]
        rw [if_pos (by simp only [decide_eq_true_eq]; exact hs)]
        rfl

/-- Counterexample for C6 as stated: the sentinel (here 4, the unit
capacity) is skipped, not treated as an end marker - the index 0 behind it
still resolves to a unit tag; and an index beyond the sentinel (7) is not
dropped - it survives as a literal unit tag. -/
theorem claim_c6_counterexample :
    LookupSelectedUnitTags [⟨42⟩] [4, 0] 4 = [42] ∧
    LookupSelectedUnitTags [] [7] 4 = [7] := by
  constructor <;> rfl

/-- C6 (amended): processing the agent-supplied index list, an index equal
to the unit-capacity sentinel is skipped (processing continues behind it),
the first negative index terminates the remainder of the list, and every
other index contributes FindOriginalTag of itself - the tag of the indexed
unit when it is within the observation, or the index itself as a literal
identity when at or beyond the observation length. -/
theorem claim_c6_lookupSelectedUnitTags (obs : List UnitR) (maxIdx : Int)
    (hmax : 0 < maxIdx) (indices : List Int) :
    (LookupSelectedUnitTags obs indices maxIdx =
      ((indices.takeWhile (fun i => decide (0 ≤ i))).filter
        (fun i => decide (i ≠ maxIdx))).map (fun i => FindOriginalTag i obs)) ∧
    (∀ p : Int, 0 ≤ p → p < obs.length →
      FindOriginalTag p obs = (obs.getD p.toNat default).tag) ∧
    (∀ p : Int, (obs.length : Int) ≤ p → FindOriginalTag p obs = p) := by
  refine ⟨lookupSelectedUnitTags_spec obs maxIdx hmax indices, ?_, ?_⟩
  · intro p hp0 hplen
    unfold FindOriginalTag
    rw [if_neg (by omega)]
  · intro p hp
    unfold FindOriginalTag
    rw [if_pos hp]

/-- Witness for C6 at a concrete selection: index 1 resolves to tag 11,
the sentinel 4 is skipped, index 0 resolves to tag 10, the trailing
negative index ends processing. -/
theorem claim_c6_lookupSelectedUnitTags_witness :
    LookupSelectedUnitTags [⟨10⟩, ⟨11⟩] [1, 4, 0, -1, 1] 4 = [11, 10] := by
  rw [(claim_c6_lookupSelectedUnitTags [⟨10⟩, ⟨11⟩] 4 (by decide)
    [1, 4, 0, -1, 1]).1]
  rfl

theorem decodeGo_all_none (cfg : EncoderCfg) (L : List RawFunction)
    (allActions : List (Option ActionRaw)) (obs : List UnitR)
    (shuffleFn : List Int → List Int) (l : List (Option ActionRaw))
    (h : ∀ a ∈ l, a = none) :
    DecodeGo cfg L allActions obs shuffleFn l =
      some (MakeFunctionCall cfg 0 0 0 [] 0 0) := by
  induction l with
  | nil => rfl
  | cons a rest ih =>
    have ha : a = none := h a (List.mem_cons_self a rest)
    subst ha
    show DecodeGo cfg L allActions obs shuffleFn (none :: rest) = _
    rw [DecodeGo]
    exact ih (fun x hx => h x (List.mem_cons_of_mem none hx))

theorem map_range_getD_nil (n : Nat) (p : Int) :
    (List.range n).map (fun i => ([] : List Int).getD i p) =
      List.replicate n p := by
  rw [List.eq_replicate_iff]
  constructor
  · rw [List.length_map, List.length_range]
  · intro b hb
    rcases List.mem_map.mp hb with ⟨i, _, hbi⟩
    exact hbi.symm

/-- C8: a step whose actions carry no raw action decodes to the canonical
no-op tensor map - function, world, queued and target are scalar 0 and the
selection vector is max-selection-size zeros (the padding sentinel is 0
because the function is the no-op); for any non-no-op function id the
padding sentinel of MakeFunctionCall is the unit capacity instead. -/
theorem claim_c8_decode_noop (cfg : EncoderCfg) (L : List RawFunction)
    (obs : List UnitR) (shuffleFn : List Int → List Int)
    (actions : List (Option ActionRaw)) (h : ∀ a ∈ actions, a = none) :
    Decode cfg L obs shuffleFn actions =
      some (MakeFunctionCall cfg 0 0 0 [] 0 0) ∧
    (MakeFunctionCall cfg 0 0 0 [] 0 0).function = some (MakeTensor 0) ∧
    (MakeFunctionCall cfg 0 0 0 [] 0 0).world = some (MakeTensor 0) ∧
    (MakeFunctionCall cfg 0 0 0 [] 0 0).queued = some (MakeTensor 0) ∧
    (MakeFunctionCall cfg 0 0 0 [] 0 0).target_unit_tag =
      some (MakeTensor 0) ∧
    (MakeFunctionCall cfg 0 0 0 [] 0 0).unit_tags =
      some ⟨[cfg.max_selection_size],
        .int32s (List.replicate cfg.max_selection_size.toNat 0)⟩ ∧
    (∀ function_id world queued target rpt : Int, function_id ≠ 0 →
      (MakeFunctionCall cfg function_id world queued [] target rpt).unit_tags =
        some ⟨[cfg.max_selection_size],
          .int32s (List.replicate cfg.max_selection_size.toNat
            cfg.max_unit_count)⟩) := by
  refine ⟨?_, rfl, rfl, rfl, rfl, ?_, ?_⟩
  · unfold Decode
    exact decodeGo_all_none cfg L actions obs shuffleFn actions h
  · show some (Tensor.mk [cfg.max_selection_size] (Payload.int32s
      ((List.range cfg.max_selection_size.toNat).map
        (fun i => ([] : List Int).getD i 0)))) = _
    rw [map_range_getD_nil]
  · intro function_id world queued target rpt hne
    simp only [MakeFunctionCall]
    simp only [if_neg hne]
    rw [map_range_getD_nil]

/-- Witness for C8: an empty request and a request holding one action
without action_raw both decode to the no-op map; the padding sentinel for
a non-no-op function id is the unit capacity. -/
theorem claim_c8_decode_noop_witness :
    Decode ⟨4, 4, 4, 2, 4, 6, false, true⟩ specRawFunctions [] id [none] =
      some (MakeFunctionCall ⟨4, 4, 4, 2, 4, 6, false, true⟩ 0 0 0 [] 0 0) ∧
    (MakeFunctionCall ⟨4, 4, 4, 2, 4, 6, false, true⟩ 0 0 0 [] 0 0).unit_tags =
      some ⟨[2], .int32s [0, 0]⟩ ∧
    (MakeFunctionCall ⟨4, 4, 4, 2, 4, 6, false, true⟩ 2 0 0 [] 0 0).unit_tags =
      some ⟨[2], .int32s [4, 4]⟩ := by
  have h := claim_c8_decode_noop ⟨4, 4, 4, 2, 4, 6, false, true⟩
    specRawFunctions [] id [none] (by intro a ha; simpa using ha)
  refine ⟨h.1, ?_, ?_⟩
  · rw [h.2.2.2.2.2.1]
    rfl
  · rw [h.2.2.2.2.2.2 2 0 0 0 0 (by decide)]
    rfl

theorem convertActionUpdate_error (st : EpisodeState)
    (r : Except EncodeError (List ActionRaw)) (e : EncodeError)
    (h : r = .error e) : ConvertActionUpdate st r = st := by
  rw [h]
  rfl

/-- C7 (amended): Encode reports a structured InvalidArgument status when
the function entry is missing, or when an in-range function lacks a
required argument (world for camera moves and point commands, unit_tags
for any non-camera command, queued for unit commands, target_unit_tag for
unit-targeted commands, repeat when action repeat is enabled); every error
leaves the episode state unmodified and does not abort; but a function
value that is negative or at/beyond the function-table size produces a
silently successful EMPTY result, not an error status. -/
theorem claim_c7_encode_errors (cfg : EncoderCfg) (L : List RawFunction)
    (obs : List UnitR) :
    (∀ w qd ut tt rp : Option Tensor,
      Encode cfg L obs ⟨none, w, qd, ut, tt, rp⟩ = .error .invalidArgument) ∧
    (∀ v : Int, ∀ w qd ut tt rp : Option Tensor,
      (v < 0 ∨ (L.length : Int) ≤ v) →
      Encode cfg L obs ⟨some (MakeTensor v), w, qd, ut, tt, rp⟩ = .ok []) ∧
    (∀ v : Int, ∀ qd ut tt rp : Option Tensor, 0 ≤ v → v < L.length →
      (L.getD v.toNat default).type = .RAW_MOVE_CAMERA →
      Encode cfg L obs ⟨some (MakeTensor v), none, qd, ut, tt, rp⟩ =
        .error .invalidArgument) ∧
    (∀ v : Int, ∀ w qd tt rp : Option Tensor, 0 ≤ v → v < L.length →
      ((L.getD v.toNat default).type = .RAW_CMD_PT ∨
       (L.getD v.toNat default).type = .RAW_CMD_UNIT ∨
       (L.getD v.toNat default).type = .RAW_CMD ∨
       (L.getD v.toNat default).type = .RAW_AUTOCAST) →
      Encode cfg L obs ⟨some (MakeTensor v), w, qd, none, tt, rp⟩ =
        .error .invalidArgument) ∧
    (∀ v : Int, ∀ w tt rp : Option Tensor, ∀ idxs : List Int,
      0 ≤ v → v < L.length →
      ((L.getD v.toNat default).type = .RAW_CMD_PT ∨
       (L.getD v.toNat default).type = .RAW_CMD_UNIT ∨
       (L.getD v.toNat default).type = .RAW_CMD) →
      Encode cfg L obs ⟨some (MakeTensor v), w, none,
        some ⟨[(idxs.length : Int)], .int32s idxs⟩, tt, rp⟩ =
        .error .invalidArgument) ∧
    (∀ v q : Int, ∀ tt rp : Option Tensor, ∀ idxs : List Int,
      0 ≤ v → v < L.length →
      (L.getD v.toNat default).type = .RAW_CMD_PT →
      Encode cfg L obs ⟨some (MakeTensor v), none, some (MakeTensor q),
        some ⟨[(idxs.length : Int)], .int32s idxs⟩, tt, rp⟩ =
        .error .invalidArgument) ∧
    (∀ v q : Int, ∀ w rp : Option Tensor, ∀ idxs : List Int,
      0 ≤ v → v < L.length →
      (L.getD v.toNat default).type = .RAW_CMD_UNIT →
      Encode cfg L obs ⟨some (MakeTensor v), w, some (MakeTensor q),
        some ⟨[(idxs.length : Int)], .int32s idxs⟩, none, rp⟩ =
        .error .invalidArgument) ∧
    (∀ v q : Int, ∀ w tt : Option Tensor, ∀ idxs : List Int,
      cfg.action_repeat = true → 0 ≤ v → v < L.length →
      (L.getD v.toNat default).type = .RAW_CMD →
      Encode cfg L obs ⟨some (MakeTensor v), w, some (MakeTensor q),
        some ⟨[(idxs.length : Int)], .int32s idxs⟩, tt, none⟩ =
        .error .invalidArgument) ∧
    (∀ action : TensorMap, ∀ st : EpisodeState, ∀ e : EncodeError,
      Encode cfg L obs action = .error e →
      ConvertActionUpdate st (Encode cfg L obs action) = st) := by
  refine ⟨?_, ?_, ?_, ?_, ?_, ?_, ?_, ?_, ?_⟩
  · intro w qd ut tt rp
    rfl
  · intro v w qd ut tt rp hout
    simp only [Encode, ToScalar, MakeTensor]
    rw [if_pos hout]
  · intro v qd ut tt rp h0 hlt htype
    simp only [Encode, ToScalar, MakeTensor]
    rw [if_neg (by rw [not_or]; constructor <;> omega)]
    simp only [htype]
    rfl
  · intro v w qd tt rp h0 hlt htype
    simp only [Encode, ToScalar, MakeTensor]
    rw [if_neg (by rw [not_or]; constructor <;> omega)]
    rcases htype with h | h | h | h <;> simp only [h] <;> rfl
  · intro v w tt rp idxs h0 hlt htype
    simp only [Encode, ToScalar, ToVector, MakeTensor]
    rw [if_neg (by rw [not_or]; constructor <;> omega)]
    rcases htype with h | h | h <;> simp only [h] <;> rfl
  · intro v q tt rp idxs h0 hlt htype
    simp only [Encode, ToScalar, ToVector, MakeTensor]
    rw [if_neg (by rw [not_or]; constructor <;> omega)]
    simp only [htype]
    rfl
  · intro v q w rp idxs h0 hlt htype
    simp only [Encode, ToScalar, ToVector, MakeTensor]
    rw [if_neg (by rw [not_or]; constructor <;> omega)]
    simp only [htype]
    rfl
  · intro v q w tt idxs hrep h0 hlt htype
    simp only [Encode, ToScalar, ToVector, MakeTensor]
    rw [if_neg (by rw [not_or]; constructor <;> omega)]
    simp only [htype]
    simp only [EncodeAppendRepeats, hrep]
    rfl
  · intro action st e herr
    exact convertActionUpdate_error st _ e herr

/-- Counterexample for C7 as stated: an out-of-range function value (-1,
and likewise one beyond the table) makes Encode return an OK status with
an empty command list - a silently successful empty result, not an error
status. -/
theorem claim_c7_counterexample :
    Encode ⟨4, 4, 4, 2, 4, 6, false, true⟩ specRawFunctions []
      (MakeFunctionCall ⟨4, 4, 4, 2, 4, 6, false, true⟩ (-1) 0 0 [] 0 0) =
      .ok [] ∧
    Encode ⟨4, 4, 4, 2, 4, 6, false, true⟩ specRawFunctions []
      (MakeFunctionCall ⟨4, 4, 4, 2, 4, 6, false, true⟩ 6 0 0 [] 0 0) =
      .ok [] ∧
    Encode ⟨4, 4, 4, 2, 4, 6, false, true⟩ specRawFunctions []
      (MakeFunctionCall ⟨4, 4, 4, 2, 4, 6, false, true⟩ (-1) 0 0 [] 0 0) ≠
      .error .invalidArgument ∧
    Encode ⟨4, 4, 4, 2, 4, 6, false, true⟩ specRawFunctions []
      (MakeFunctionCall ⟨4, 4, 4, 2, 4, 6, false, true⟩ (-1) 0 0 [] 0 0) ≠
      .error .fatal := by
  refine ⟨rfl, rfl, fun hcon => Except.noConfusion hcon,
    fun hcon => Except.noConfusion hcon⟩

/-- Witness for C7: a missing queued argument on the quick command of the
vocabulary table is an InvalidArgument error and leaves an episode state
unchanged; a no-op encode leaves the OK path intact. -/
theorem claim_c7_encode_errors_witness :
    Encode ⟨4, 4, 4, 2, 4, 6, false, true⟩ specRawFunctions []
      ⟨some (MakeTensor 4), none, none, some ⟨[1], .int32s [0]⟩, none, none⟩ =
      .error .invalidArgument ∧
    ConvertActionUpdate ⟨[9], 3⟩
      (Encode ⟨4, 4, 4, 2, 4, 6, false, true⟩ specRawFunctions []
        ⟨some (MakeTensor 4), none, none, some ⟨[1], .int32s [0]⟩, none, none⟩) =
      ⟨[9], 3⟩ := by
  have h := (claim_c7_encode_errors ⟨4, 4, 4, 2, 4, 6, false, true⟩
    specRawFunctions []).2.2.2.2.1 4 none none none [0]
    (by decide) (by decide) (by decide)
  have h2 := (claim_c7_encode_errors ⟨4, 4, 4, 2, 4, 6, false, true⟩
    specRawFunctions []).2.2.2.2.2.2.2.2
    ⟨some (MakeTensor 4), none, none, some ⟨[1], .int32s [0]⟩, none, none⟩
    ⟨[9], 3⟩ .invalidArgument
  exact ⟨h, h2 h⟩


/-- C5 (amended): with action repeat enabled, Encode emits a plain quick
command (RAW_CMD) repeat + 1 times; command-to-point, command-to-unit,
camera-move and autocast functions are emitted exactly once regardless of
the repeat argument; a no-op emits no command at all. -/
theorem claim_c5_encode_repeat (cfg : EncoderCfg) (L : List RawFunction)
    (obs : List UnitR) (fid world queued : Int) (tags : List Int)
    (target rpt : Int) (hrep : cfg.action_repeat = true)
    (h0 : 0 ≤ fid) (hlt : fid < L.length) :
    ((L.getD fid.toNat default).type = .RAW_CMD → 0 ≤ rpt →
      ∃ cmd, Encode cfg L obs
          (MakeFunctionCall cfg fid world queued tags target rpt) =
        .ok (List.replicate (rpt.toNat + 1) cmd)) ∧
    ((L.getD fid.toNat default).type = .RAW_CMD_PT →
      ∃ cmd, Encode cfg L obs
          (MakeFunctionCall cfg fid world queued tags target rpt) =
        .ok [cmd]) ∧
    ((L.getD fid.toNat default).type = .RAW_CMD_UNIT → 0 ≤ target →
      ∃ cmd, Encode cfg L obs
          (MakeFunctionCall cfg fid world queued tags target rpt) =
        .ok [cmd]) ∧
    ((L.getD fid.toNat default).type = .RAW_MOVE_CAMERA →
      ∃ cmd, Encode cfg L obs
          (MakeFunctionCall cfg fid world queued tags target rpt) =
        .ok [cmd]) ∧
    ((L.getD fid.toNat default).type = .RAW_AUTOCAST →
      ∃ cmd, Encode cfg L obs
          (MakeFunctionCall cfg fid world queued tags target rpt) =
        .ok [cmd]) ∧
    ((L.getD fid.toNat default).type = .NO_OP →
      Encode cfg L obs
          (MakeFunctionCall cfg fid world queued tags target rpt) =
        .ok []) := by
  refine ⟨?_, ?_, ?_, ?_, ?_, ?_⟩
  · intro htype hr0
    have ht : (rpt + 1).toNat = rpt.toNat + 1 := by omega
    have key : Encode cfg L obs
        (MakeFunctionCall cfg fid world queued tags target rpt) =
        .ok (List.replicate (rpt + 1).toNat
          (ActionRaw.unitCommand (L.getD fid.toNat default).ability_id
            (LookupSelectedUnitTags obs
              ((List.range cfg.max_selection_size.toNat).map
                (fun i => tags.getD i
                  (if fid = 0 then 0 else cfg.max_unit_count)))
              cfg.max_unit_count)
            (decide (queued ≠ 0)) none none)) := by
      simp only [Encode, MakeFunctionCall, ToScalar, ToVector, MakeTensor,
        EncodeAppendRepeats, hrep, htype]
      rw [if_neg (by rw [not_or]; constructor <;> omega)]
      rfl
    rw [ht] at key
    exact ⟨_, key⟩
  · intro htype
    exact ⟨_, by
      simp only [Encode, MakeFunctionCall, ToScalar, ToVector, MakeTensor,
        EncodeAppendRepeats, hrep, htype]
      rw [if_neg (by rw [not_or]; constructor <;> omega)]
      rfl⟩
  · intro htype htgt
    exact ⟨_, by
      simp only [Encode, MakeFunctionCall, ToScalar, ToVector, MakeTensor,
        EncodeAppendRepeats, hrep, htype]
      rw [if_neg (by rw [not_or]; constructor <;> omega)]
      rw [if_neg (show ¬ (target < 0) by omega)]
      rfl⟩
  · intro htype
    exact ⟨_, by
      simp only [Encode, MakeFunctionCall, ToScalar, ToVector, MakeTensor,
        EncodeAppendRepeats, hrep, htype]
      rw [if_neg (by rw [not_or]; constructor <;> omega)]
      rfl⟩
  · intro htype
    exact ⟨_, by
      simp only [Encode, MakeFunctionCall, ToScalar, ToVector, MakeTensor,
        EncodeAppendRepeats, hrep, htype]
      rw [if_neg (by rw [not_or]; constructor <;> omega)]
      rfl⟩
  · intro htype
    simp only [Encode, MakeFunctionCall, ToScalar, ToVector, MakeTensor, hrep,
      htype]
    rw [if_neg (by rw [not_or]; constructor <;> omega)]
    rfl

/-- Counterexample for C5 as stated: with action repeat enabled and
repeat = 1, a command-to-point function emits exactly one command, not
repeat + 1 = 2 (repeat takes effect only for plain RAW_CMD functions). -/
theorem claim_c5_counterexample :
    Encode ⟨4, 4, 4, 2, 4, 6, false, true⟩ specRawFunctions [⟨10⟩]
      (MakeFunctionCall ⟨4, 4, 4, 2, 4, 6, false, true⟩ 2 5 0 [0] 0 1) =
      .ok [.unitCommand 2 [10] false none (some (3 / 2, 5 / 2))] ∧
    [ActionRaw.unitCommand 2 [10] false none (some (3 / 2, 5 / 2))].length = 1 ∧
    (1 : Nat) ≠ 1 + 1 := by
  refine ⟨rfl, rfl, by decide⟩

/-- Witness for C5: on the vocabulary table a quick command with repeat 2
is emitted three times while a point command with repeat 2 is emitted
once. -/
theorem claim_c5_encode_repeat_witness :
    (∃ cmd, Encode ⟨4, 4, 4, 2, 4, 6, false, true⟩ specRawFunctions [⟨10⟩]
        (MakeFunctionCall ⟨4, 4, 4, 2, 4, 6, false, true⟩ 4 0 0 [0] 0 2) =
      .ok (List.replicate 3 cmd)) ∧
    (∃ cmd, Encode ⟨4, 4, 4, 2, 4, 6, false, true⟩ specRawFunctions [⟨10⟩]
        (MakeFunctionCall ⟨4, 4, 4, 2, 4, 6, false, true⟩ 2 5 0 [0] 0 2) =
      .ok [cmd]) := by
  constructor
  · exact (claim_c5_encode_repeat ⟨4, 4, 4, 2, 4, 6, false, true⟩
      specRawFunctions [⟨10⟩] 4 0 0 [0] 0 2 rfl (by decide) (by decide)).1
      (by decide) (by decide)
  · exact (claim_c5_encode_repeat ⟨4, 4, 4, 2, 4, 6, false, true⟩
      specRawFunctions [⟨10⟩] 2 5 0 [0] 0 2 rfl (by decide) (by decide)).2.1
      (by decide)

/-! ## Helper lemmas for the encode/decode round trip -/

theorem map_getD_range_split (l : List Int) (pad : Int) (k : Nat)
    (h : l.length ≤ k) :
    (List.range k).map (fun i => l.getD i pad) =
      l ++ List.replicate (k - l.length) pad := by
  apply List.ext_getElem
  · simp only [List.length_map, List.length_range, List.length_append,
      List.length_replicate]
    omega
  · intro i h1 h2
    simp only [List.length_map, List.length_range] at h1
    simp only [List.getElem_map, List.getElem_range]
    by_cases hi : i < l.length
    · rw [List.getElem_append_left hi]
      exact List.getD_eq_getElem l pad hi
    · push_neg at hi
      rw [List.getD_eq_default l pad hi]
      rw [List.getElem_append_right hi, List.getElem_replicate]

theorem range_filter_mem (N : List Nat) (n : Nat)
    (hs : N.Pairwise (· < ·)) (hlt : ∀ m ∈ N, m < n) :
    (List.range n).filter (fun i => decide (i ∈ N)) = N := by
  induction n generalizing N with
  | zero =>
    have hN : N = [] := by
      cases N with
      | nil => rfl
      | cons a t => exact absurd (hlt a (List.mem_cons_self a t)) (by omega)
    subst hN
    rfl
  | succ n ih =>
    rw [List.range_succ, List.filter_append]
    by_cases hn : n ∈ N
    · obtain ⟨l1, l2, hN⟩ := List.append_of_mem hn
      subst hN
      have hl2 : l2 = [] := by
        cases l2 with
        | nil => rfl
        | cons b t =>
          have hb : n < b := by
            have h1 := (List.pairwise_append.mp hs).2.1
            exact (List.pairwise_cons.mp h1).1 b (List.mem_cons_self b t)
          have hb2 : b < n + 1 := hlt b (by simp)
          omega
      subst hl2
      have hl1lt : ∀ m ∈ l1, m < n := by
        intro m hm
        exact (List.pairwise_append.mp hs).2.2 m hm n
          (List.mem_cons_self n [])
      have hps : l1.Pairwise (· < ·) := (List.pairwise_append.mp hs).1
      have hcongr : ∀ x ∈ List.range n,
          (decide (x ∈ l1 ++ [n]) : Bool) = decide (x ∈ l1) := by
        intro x hx
        have hxn : x < n := List.mem_range.mp hx
        simp only [decide_eq_decide, List.mem_append, List.mem_singleton]
        constructor
        · rintro (h | h)
          · exact h
          · omega
        · exact Or.inl
      rw [List.filter_congr hcongr, ih l1 hps hl1lt]
      have hone : (List.filter (fun i => decide (i ∈ l1 ++ [n])) [n]) =
          [n] := by
        simp
      rw [hone]
    · have hlt2 : ∀ m ∈ N, m < n := by
        intro m hm
        have h1 := hlt m hm
        rcases Nat.lt_succ_iff_lt_or_eq.mp h1 with h | h
        · exact h
        · exact absurd (h ▸ hm) hn
      rw [ih N hs hlt2]
      have hzero : (List.filter (fun i => decide (i ∈ N)) [n]) = [] := by
        simp [hn]
      rw [hzero, List.append_nil]

theorem lookup_append_replicate (obs : List UnitR) (l : List Int)
    (sent : Int) (d : Nat) (h : ∀ t ∈ l, 0 ≤ t ∧ t < sent) :
    LookupSelectedUnitTags obs (l ++ List.replicate d sent) sent =
      l.map (fun t => FindOriginalTag t obs) := by
  induction l with
  | nil =>
    simp only [List.nil_append, List.map_nil]
    induction d with
    | zero => rfl
    | succ k ihd =>
      rw [List.replicate_succ]
      simp only [LookupSelectedUnitTags]
      rw [if_pos trivial]
      exact ihd
  | cons a t ih =>
    obtain ⟨ha0, has⟩ := h a (List.mem_cons_self a t)
    simp only [List.cons_append, List.map_cons]
    simp only [LookupSelectedUnitTags]
    rw [if_neg (by omega), if_neg (by omega)]
    rw [ih (fun x hx => h x (List.mem_cons_of_mem a hx))]

theorem obs_tag_inj (obs : List UnitR)
    (hnodup : (obs.map UnitR.tag).Nodup) (i j : Nat)
    (hi : i < obs.length) (hj : j < obs.length)
    (heq : (obs.getD i default).tag = (obs.getD j default).tag) : i = j := by
  have hi2 : i < (obs.map UnitR.tag).length := by simpa using hi
  have hj2 : j < (obs.map UnitR.tag).length := by simpa using hj
  have h1 : (obs.map UnitR.tag)[i] = (obs.map UnitR.tag)[j] := by
    simp only [List.getElem_map]
    rw [← List.getD_eq_getElem obs default hi,
      ← List.getD_eq_getElem obs default hj]
    exact heq
  exact (List.Nodup.getElem_inj_iff hnodup).mp h1

theorem findSelectionIndices_map_tag (obs : List UnitR) (tags : List Int)
    (hnodup : (obs.map UnitR.tag).Nodup)
    (hsort : tags.Pairwise (· < ·))
    (hrange : ∀ t ∈ tags, 0 ≤ t ∧ t < (obs.length : Int)) :
    FindSelectionIndices obs
      (tags.map (fun t => (obs.getD t.toNat default).tag)) = tags := by
  unfold FindSelectionIndices
  have hcongr : ∀ x ∈ List.range obs.length,
      ((tags.map (fun t => (obs.getD t.toNat default).tag)).contains
        (obs.getD x default).tag) =
      decide (x ∈ tags.map Int.toNat) := by
    intro x hx
    have hxn : x < obs.length := List.mem_range.mp hx
    rw [List.contains, List.elem_eq_mem, decide_eq_decide]
    constructor
    · intro hmem
      obtain ⟨t, ht, heq⟩ := List.mem_map.mp hmem
      obtain ⟨ht0, htl⟩ := hrange t ht
      have htlen : t.toNat < obs.length := by omega
      have hix := obs_tag_inj obs hnodup t.toNat x htlen hxn heq
      exact List.mem_map.mpr ⟨t, ht, hix⟩
    · intro hmem
      obtain ⟨t, ht, heq⟩ := List.mem_map.mp hmem
      exact List.mem_map.mpr ⟨t, ht, by rw [heq]⟩
  have hp : (tags.map Int.toNat).Pairwise (· < ·) := by
    rw [List.pairwise_map]
    refine List.Pairwise.imp_of_mem ?_ hsort
    intro a b ha hb hab
    have h1 := (hrange a ha).1
    omega
  have hl : ∀ m ∈ tags.map Int.toNat, m < obs.length := by
    intro m hm
    obtain ⟨t, ht, rfl⟩ := List.mem_map.mp hm
    have h1 := hrange t ht
    omega
  rw [List.filter_congr hcongr, range_filter_mem (tags.map Int.toNat)
    obs.length hp hl, List.map_map]
  have hid : ∀ t ∈ tags, (Int.ofNat ∘ Int.toNat) t = id t := by
    intro t ht
    simp only [Function.comp_apply, id]
    exact Int.toNat_of_nonneg (hrange t ht).1
  rw [List.map_congr_left hid, List.map_id]

theorem find_first_range (n k : Nat) (p : Nat → Bool) (hk : k < n)
    (hpk : p k = true) (hbefore : ∀ j, j < k → p j = false) :
    (List.range n).find? p = some k := by
  have hsplit : n = k + (n - k) := by omega
  rw [hsplit, List.range_add, List.find?_append]
  have h1 : (List.range k).find? p = none :=
    List.find?_eq_none.mpr (fun x hx => by
      rw [hbefore x (List.mem_range.mp hx)]
      exact Bool.false_ne_true)
  rw [h1, Option.none_or]
  have h2 : n - k = (n - k - 1) + 1 := by omega
  rw [h2, List.range_succ_eq_map, List.map_cons]
  rw [List.find?_cons_of_pos _ (by simpa using hpk)]
  rfl

theorem ite_decide_queued (q : Int) (h0 : 0 ≤ q) (h1 : q ≤ 1) :
    (if decide (q ≠ 0) = true then (1 : Int) else 0) = q := by
  have h : q = 0 ∨ q = 1 := by omega
  rcases h with h | h <;> subst h <;> decide

theorem countSameAbility_replicate (n : Nat) (c : ActionRaw) (a : Int)
    (hc : unitCommandAbilityId (some c) = a) :
    countSameAbility (List.replicate n (some c)) a = n := by
  have hfil : (List.replicate n (some c)).filter
      (fun x => decide (unitCommandAbilityId x = a)) =
      List.replicate n (some c) := by
    apply List.filter_eq_self.mpr
    intro x hx
    rw [List.eq_of_mem_replicate hx]
    exact decide_eq_true hc
  unfold countSameAbility
  rw [hfil, List.length_replicate]

theorem countSameAbility_one (a : Int) (tl : List Int) (q : Bool)
    (tgt : Option Int) (pos : Option (ℚ × ℚ)) :
    countSameAbility [some (.unitCommand a tl q tgt pos)] a = 1 := by
  simp [countSameAbility, unitCommandAbilityId]

theorem rtrunc_intAdd_half (n : Int) (hn : 0 ≤ n) :
    rtrunc ((n : ℚ) + 1 / 2) = n := by
  have h0 : (0 : ℚ) ≤ (n : ℚ) + 1 / 2 := by
    have h1 : (0 : ℚ) ≤ (n : ℚ) := by exact_mod_cast hn
    linarith
  unfold rtrunc
  rw [if_pos h0, Int.floor_int_add]
  norm_num

theorem coords_roundtrip (cfg : EncoderCfg) (w : Int)
    (hres : 0 < cfg.raw_resolution) (hmy : 0 < cfg.map_size_y)
    (hw0 : 0 ≤ w)
    (hclamp : (1 : ℚ) / 2 ≤ (cfg.map_size_y : ℚ) -
      (((w.tdiv cfg.raw_resolution : Int) : ℚ) + 1 / 2) /
        ((cfg.raw_resolution : ℚ) /
          max (cfg.map_size_x : ℚ) (cfg.map_size_y : ℚ))) :
    WorldCoordsToAgentCoords cfg (AgentCoordsToWorldCoords cfg w).1
      (AgentCoordsToWorldCoords cfg w).2 = w := by
  have hm0 : 0 ≤ w.tmod cfg.raw_resolution := Int.tmod_nonneg _ hw0
  have hd0 : 0 ≤ w.tdiv cfg.raw_resolution :=
    Int.tdiv_nonneg hw0 (le_of_lt hres)
  have hMpos : (0 : ℚ) < max (cfg.map_size_x : ℚ) (cfg.map_size_y : ℚ) :=
    lt_of_lt_of_le (by exact_mod_cast hmy) (le_max_right _ _)
  have hscale : ((cfg.raw_resolution : ℚ) /
      max (cfg.map_size_x : ℚ) (cfg.map_size_y : ℚ)) ≠ 0 :=
    ne_of_gt (div_pos (by exact_mod_cast hres) hMpos)
  have hcancel : ∀ c : ℚ, ((cfg.raw_resolution : ℚ) /
      max (cfg.map_size_x : ℚ) (cfg.map_size_y : ℚ)) *
      (c / ((cfg.raw_resolution : ℚ) /
        max (cfg.map_size_x : ℚ) (cfg.map_size_y : ℚ))) = c :=
    fun c => mul_div_cancel₀ c hscale
  show cfg.raw_resolution *
      rtrunc (((cfg.raw_resolution : ℚ) /
          max (cfg.map_size_x : ℚ) (cfg.map_size_y : ℚ)) *
        ((cfg.map_size_y : ℚ) - max (1 / 2)
          ((cfg.map_size_y : ℚ) -
            (((w.tdiv cfg.raw_resolution : Int) : ℚ) + 1 / 2) /
              ((cfg.raw_resolution : ℚ) /
                max (cfg.map_size_x : ℚ) (cfg.map_size_y : ℚ))))) +
      rtrunc (((cfg.raw_resolution : ℚ) /
          max (cfg.map_size_x : ℚ) (cfg.map_size_y : ℚ)) *
        ((((w.tmod cfg.raw_resolution : Int) : ℚ) + 1 / 2) /
          ((cfg.raw_resolution : ℚ) /
            max (cfg.map_size_x : ℚ) (cfg.map_size_y : ℚ)))) = w
  rw [max_eq_right hclamp, sub_sub_cancel, hcancel, hcancel]
  rw [rtrunc_intAdd_half _ hd0, rtrunc_intAdd_half _ hm0]
  exact Int.tdiv_add_tmod w cfg.raw_resolution

theorem decodeFinish_done_some (cfg : EncoderCfg)
    (A : List (Option ActionRaw)) (a : Int) (cam : Bool)
    (fid world queued target : Int) (tags : List Int)
    (shuffleFn : List Int → List Int)
    (hshuffle : cfg.shuffle_unit_tags = false)
    (hfid0 : 0 ≤ fid) (hfidN : fid < cfg.num_action_types)
    (hw : 0 ≤ world ∧ world < cfg.raw_resolution * cfg.raw_resolution)
    (hq : 0 ≤ queued ∧ queued ≤ 1)
    (htags : ∀ t ∈ tags, 0 ≤ t ∧ t < cfg.max_unit_count)
    (htgt : 0 ≤ target ∧ target < cfg.max_unit_count)
    (hne : cam = true ∨ tags ≠ []) :
    DecodeFinish cfg A (some a) cam fid world queued tags target shuffleFn =
      .done (MakeFunctionCall cfg fid world queued tags target
        (((min (countSameAbility A a) 3 : Nat) : Int) - 1)) := by
  simp only [DecodeFinish]
  rw [if_neg (not_le.mpr hfidN)]
  rw [List.filter_eq_self.mpr (fun t ht => decide_eq_true (htags t ht).2)]
  rw [if_neg (fun hcon => by
    obtain ⟨h1, h2⟩ := hcon
    rcases hne with hc | ht0
    · exact h1 (by simp [hc])
    · rcases h2 with h2 | h2
      · exact ht0 h2
      · have := htgt.2
        omega)]
  rw [hshuffle, if_neg Bool.false_ne_true]
  rw [if_pos ⟨hfid0, hfidN, hw.1, hw.2, hq.1, hq.2, htags, htgt.1⟩]

theorem decodeFinish_done_none (cfg : EncoderCfg)
    (A : List (Option ActionRaw)) (cam : Bool)
    (fid world queued target : Int) (tags : List Int)
    (shuffleFn : List Int → List Int)
    (hshuffle : cfg.shuffle_unit_tags = false)
    (hfid0 : 0 ≤ fid) (hfidN : fid < cfg.num_action_types)
    (hw : 0 ≤ world ∧ world < cfg.raw_resolution * cfg.raw_resolution)
    (hq : 0 ≤ queued ∧ queued ≤ 1)
    (htags : ∀ t ∈ tags, 0 ≤ t ∧ t < cfg.max_unit_count)
    (htgt : 0 ≤ target ∧ target < cfg.max_unit_count)
    (hne : cam = true ∨ tags ≠ []) :
    DecodeFinish cfg A none cam fid world queued tags target shuffleFn =
      .done (MakeFunctionCall cfg fid world queued tags target 0) := by
  simp only [DecodeFinish]
  rw [if_neg (not_le.mpr hfidN)]
  rw [List.filter_eq_self.mpr (fun t ht => decide_eq_true (htags t ht).2)]
  rw [if_neg (fun hcon => by
    obtain ⟨h1, h2⟩ := hcon
    rcases hne with hc | ht0
    · exact h1 (by simp [hc])
    · rcases h2 with h2 | h2
      · exact ht0 h2
      · have := htgt.2
        omega)]
  rw [hshuffle, if_neg Bool.false_ne_true]
  rw [if_pos ⟨hfid0, hfidN, hw.1, hw.2, hq.1, hq.2, htags, htgt.1⟩]
  rfl

/-- C1 (amended): the encode/decode round trip holds per function kind
under the spec ranges, with these corrections: the repeat argument only
survives the round trip for plain quick commands (RAW_CMD) with repeat
0..2 - every other kind decodes with repeat 0, so their round trip
requires repeat = 0; unused arguments must hold their zero defaults; the
point and camera world coordinate must in addition not fall in the bottom
clamp band of the map (max(0.5, y) must leave y unchanged); selections
must be sorted in-range index lists without duplicate-tag units; and the
function index must resolve back through the table (FindFunction of the
ability and type, or the RAW_MOVE_CAMERA scan, returns it). -/
theorem claim_c1_roundtrip (cfg : EncoderCfg) (L : List RawFunction)
    (obs : List UnitR) (shuffleFn : List Int → List Int)
    (fid world queued : Int) (tags : List Int) (target rpt : Int)
    (hshuffle : cfg.shuffle_unit_tags = false)
    (hrep : cfg.action_repeat = true)
    (hres : 0 < cfg.raw_resolution)
    (hmx : 0 < cfg.map_size_x) (hmy : 0 < cfg.map_size_y)
    (hmuc : 0 < cfg.max_unit_count)
    (hnodup : (obs.map UnitR.tag).Nodup)
    (hsel : tags.length ≤ cfg.max_selection_size.toNat)
    (hsort : tags.Pairwise (· < ·))
    (hrange : ∀ t ∈ tags, 0 ≤ t ∧ t < cfg.max_unit_count ∧
      t < (obs.length : Int))
    (hfid0 : 0 < fid) (hfidL : fid < (L.length : Int))
    (hfidN : fid < cfg.num_action_types)
    (hq : 0 ≤ queued ∧ queued ≤ 1) :
    ((L.getD fid.toNat default).type = .RAW_CMD →
      FindFunction L (L.getD fid.toNat default).ability_id .RAW_CMD = fid →
      tags ≠ [] → world = 0 → target = 0 → 0 ≤ rpt → rpt ≤ 2 →
      ∃ req, Encode cfg L obs
          (MakeFunctionCall cfg fid world queued tags target rpt) =
          .ok req ∧
        Decode cfg L obs shuffleFn (req.map some) =
          some (MakeFunctionCall cfg fid world queued tags target rpt)) ∧
    ((L.getD fid.toNat default).type = .RAW_CMD_PT →
      FindFunction L (L.getD fid.toNat default).ability_id .RAW_CMD_PT =
        fid →
      tags ≠ [] → target = 0 → rpt = 0 → 0 ≤ world →
      world < cfg.raw_resolution * cfg.raw_resolution →
      (1 : ℚ) / 2 ≤ (cfg.map_size_y : ℚ) -
        (((world.tdiv cfg.raw_resolution : Int) : ℚ) + 1 / 2) /
          ((cfg.raw_resolution : ℚ) /
            max (cfg.map_size_x : ℚ) (cfg.map_size_y : ℚ)) →
      ∃ req, Encode cfg L obs
          (MakeFunctionCall cfg fid world queued tags target rpt) =
          .ok req ∧
        Decode cfg L obs shuffleFn (req.map some) =
          some (MakeFunctionCall cfg fid world queued tags target rpt)) ∧
    ((L.getD fid.toNat default).type = .RAW_CMD_UNIT →
      FindFunction L (L.getD fid.toNat default).ability_id .RAW_CMD_UNIT =
        fid →
      tags ≠ [] → world = 0 → rpt = 0 → 0 ≤ target →
      target < cfg.max_unit_count → target < (obs.length : Int) →
      ∃ req, Encode cfg L obs
          (MakeFunctionCall cfg fid world queued tags target rpt) =
          .ok req ∧
        Decode cfg L obs shuffleFn (req.map some) =
          some (MakeFunctionCall cfg fid world queued tags target rpt)) ∧
    ((L.getD fid.toNat default).type = .RAW_MOVE_CAMERA →
      ((L.findIdx (fun f => decide (f.type = .RAW_MOVE_CAMERA)) : Nat) :
        Int) = fid →
      tags = [] → queued = 0 → target = 0 → rpt = 0 → 0 ≤ world →
      world < cfg.raw_resolution * cfg.raw_resolution →
      (1 : ℚ) / 2 ≤ (cfg.map_size_y : ℚ) -
        (((world.tdiv cfg.raw_resolution : Int) : ℚ) + 1 / 2) /
          ((cfg.raw_resolution : ℚ) /
            max (cfg.map_size_x : ℚ) (cfg.map_size_y : ℚ)) →
      ∃ req, Encode cfg L obs
          (MakeFunctionCall cfg fid world queued tags target rpt) =
          .ok req ∧
        Decode cfg L obs shuffleFn (req.map some) =
          some (MakeFunctionCall cfg fid world queued tags target rpt)) ∧
    ((L.getD fid.toNat default).type = .RAW_AUTOCAST →
      FindFunction L (L.getD fid.toNat default).ability_id .RAW_AUTOCAST =
        fid →
      tags ≠ [] → queued = 0 → world = 0 → target = 0 → rpt = 0 →
      ∃ req, Encode cfg L obs
          (MakeFunctionCall cfg fid world queued tags target rpt) =
          .ok req ∧
        Decode cfg L obs shuffleFn (req.map some) =
          some (MakeFunctionCall cfg fid world queued tags target rpt)) ∧
    ((L.getD 0 default).type = .NO_OP →
      ∃ req, Encode cfg L obs (MakeFunctionCall cfg 0 0 0 [] 0 0) =
          .ok req ∧
        Decode cfg L obs shuffleFn (req.map some) =
          some (MakeFunctionCall cfg 0 0 0 [] 0 0)) := by
  have hpadgen : ¬ fid = 0 → LookupSelectedUnitTags obs
      ((List.range cfg.max_selection_size.toNat).map
        (fun i => tags.getD i (if fid = 0 then 0 else cfg.max_unit_count)))
      cfg.max_unit_count =
      tags.map (fun t => (obs.getD t.toNat default).tag) := by
    intro hfidne
    have hif : (fun i => tags.getD i
        (if fid = 0 then 0 else cfg.max_unit_count)) =
        (fun i => tags.getD i cfg.max_unit_count) := by
      funext i
      rw [if_neg hfidne]
    rw [hif, map_getD_range_split tags cfg.max_unit_count
      cfg.max_selection_size.toNat hsel]
    rw [lookup_append_replicate obs tags cfg.max_unit_count _
      (fun t ht => ⟨(hrange t ht).1, (hrange t ht).2.1⟩)]
    refine List.map_congr_left ?_
    intro t ht
    simp only [FindOriginalTag]
    rw [if_neg (by have := (hrange t ht).2.2; omega)]
  have hFSI : FindSelectionIndices obs
      (tags.map (fun t => (obs.getD t.toNat default).tag)) = tags :=
    findSelectionIndices_map_tag obs tags hnodup hsort
      (fun t ht => ⟨(hrange t ht).1, (hrange t ht).2.2⟩)
  refine ⟨?_, ?_, ?_, ?_, ?_, ?_⟩
  · intro htype hfind htne hw htg hr0 hr2
    subst hw htg
    have hpad := hpadgen (by omega)
    have ht1 : (rpt + 1).toNat = rpt.toNat + 1 := by omega
    have key : Encode cfg L obs
        (MakeFunctionCall cfg fid 0 queued tags 0 rpt) =
        .ok (List.replicate (rpt + 1).toNat
          (ActionRaw.unitCommand (L.getD fid.toNat default).ability_id
            (LookupSelectedUnitTags obs
              ((List.range cfg.max_selection_size.toNat).map
                (fun i => tags.getD i
                  (if fid = 0 then 0 else cfg.max_unit_count)))
              cfg.max_unit_count)
            (decide (queued ≠ 0)) none none)) := by
      simp only [Encode, MakeFunctionCall, ToScalar, ToVector, MakeTensor,
        EncodeAppendRepeats, hrep, htype]
      rw [if_neg (by rw [not_or]; constructor <;> omega)]
      rfl
    rw [hpad, ht1] at key
    have hone : DecodeOne cfg L
        (List.replicate (rpt.toNat + 1)
          (some (ActionRaw.unitCommand (L.getD fid.toNat default).ability_id
            (tags.map (fun t => (obs.getD t.toNat default).tag))
            (decide (queued ≠ 0)) none none)))
        obs shuffleFn
        (some (ActionRaw.unitCommand (L.getD fid.toNat default).ability_id
          (tags.map (fun t => (obs.getD t.toNat default).tag))
          (decide (queued ≠ 0)) none none)) =
        .done (MakeFunctionCall cfg fid 0 queued tags 0 rpt) := by
      have h1 : DecodeOne cfg L
          (List.replicate (rpt.toNat + 1)
            (some (ActionRaw.unitCommand
              (L.getD fid.toNat default).ability_id
              (tags.map (fun t => (obs.getD t.toNat default).tag))
              (decide (queued ≠ 0)) none none)))
          obs shuffleFn
          (some (ActionRaw.unitCommand (L.getD fid.toNat default).ability_id
            (tags.map (fun t => (obs.getD t.toNat default).tag))
            (decide (queued ≠ 0)) none none)) =
          DecodeFinish cfg
            (List.replicate (rpt.toNat + 1)
              (some (ActionRaw.unitCommand
                (L.getD fid.toNat default).ability_id
                (tags.map (fun t => (obs.getD t.toNat default).tag))
                (decide (queued ≠ 0)) none none)))
            (some (L.getD fid.toNat default).ability_id) false
            (FindFunction L (L.getD fid.toNat default).ability_id .RAW_CMD)
            0 (if decide (queued ≠ 0) = true then 1 else 0)
            (FindSelectionIndices obs
              (tags.map (fun t => (obs.getD t.toNat default).tag)))
            0 shuffleFn := rfl
      rw [h1, hfind, ite_decide_queued queued hq.1 hq.2, hFSI]
      rw [decodeFinish_done_some cfg _ _ false fid 0 queued 0 tags shuffleFn
        hshuffle (by omega) hfidN ⟨le_refl 0, mul_pos hres hres⟩ hq
        (fun t ht => ⟨(hrange t ht).1, (hrange t ht).2.1⟩)
        ⟨le_refl 0, hmuc⟩ (Or.inr htne)]
      rw [countSameAbility_replicate (rpt.toNat + 1)
        (ActionRaw.unitCommand (L.getD fid.toNat default).ability_id
          (tags.map (fun t => (obs.getD t.toNat default).tag))
          (decide (queued ≠ 0)) none none)
        ((L.getD fid.toNat default).ability_id) rfl]
      rw [min_eq_left (by omega : rpt.toNat + 1 ≤ 3)]
      have h2 : ((rpt.toNat + 1 : Nat) : Int) - 1 = rpt := by omega
      rw [h2]
    refine ⟨_, key, ?_⟩
    rw [List.map_replicate]
    simp only [Decode]
    nth_rewrite 2 [List.replicate_succ]
    simp only [DecodeGo]
    rw [hone]
  · intro htype hfind htne htg hrz hw0 hwlt hclamp
    subst htg hrz
    have hpad := hpadgen (by omega)
    have key : Encode cfg L obs
        (MakeFunctionCall cfg fid world queued tags 0 0) =
        .ok [ActionRaw.unitCommand (L.getD fid.toNat default).ability_id
          (LookupSelectedUnitTags obs
            ((List.range cfg.max_selection_size.toNat).map
              (fun i => tags.getD i
                (if fid = 0 then 0 else cfg.max_unit_count)))
            cfg.max_unit_count)
          (decide (queued ≠ 0)) none
          (some (AgentCoordsToWorldCoords cfg world))] := by
      simp only [Encode, MakeFunctionCall, ToScalar, ToVector, MakeTensor,
        EncodeAppendRepeats, hrep, htype]
      rw [if_neg (by rw [not_or]; constructor <;> omega)]
      rfl
    rw [hpad] at key
    have hone : DecodeOne cfg L
        [some (ActionRaw.unitCommand (L.getD fid.toNat default).ability_id
          (tags.map (fun t => (obs.getD t.toNat default).tag))
          (decide (queued ≠ 0)) none
          (some (AgentCoordsToWorldCoords cfg world)))]
        obs shuffleFn
        (some (ActionRaw.unitCommand (L.getD fid.toNat default).ability_id
          (tags.map (fun t => (obs.getD t.toNat default).tag))
          (decide (queued ≠ 0)) none
          (some (AgentCoordsToWorldCoords cfg world)))) =
        .done (MakeFunctionCall cfg fid world queued tags 0 0) := by
      have h1 : DecodeOne cfg L
          [some (ActionRaw.unitCommand (L.getD fid.toNat default).ability_id
            (tags.map (fun t => (obs.getD t.toNat default).tag))
            (decide (queued ≠ 0)) none
            (some (AgentCoordsToWorldCoords cfg world)))]
          obs shuffleFn
          (some (ActionRaw.unitCommand (L.getD fid.toNat default).ability_id
            (tags.map (fun t => (obs.getD t.toNat default).tag))
            (decide (queued ≠ 0)) none
            (some (AgentCoordsToWorldCoords cfg world)))) =
          DecodeFinish cfg
            [some (ActionRaw.unitCommand
              (L.getD fid.toNat default).ability_id
              (tags.map (fun t => (obs.getD t.toNat default).tag))
              (decide (queued ≠ 0)) none
              (some (AgentCoordsToWorldCoords cfg world)))]
            (some (L.getD fid.toNat default).ability_id) false
            (FindFunction L (L.getD fid.toNat default).ability_id
              .RAW_CMD_PT)
            (WorldCoordsToAgentCoords cfg
              (AgentCoordsToWorldCoords cfg world).1
              (AgentCoordsToWorldCoords cfg world).2)
            (if decide (queued ≠ 0) = true then 1 else 0)
            (FindSelectionIndices obs
              (tags.map (fun t => (obs.getD t.toNat default).tag)))
            0 shuffleFn := rfl
      rw [h1, hfind, ite_decide_queued queued hq.1 hq.2, hFSI,
        coords_roundtrip cfg world hres hmy hw0 hclamp]
      rw [decodeFinish_done_some cfg _ _ false fid world queued 0 tags
        shuffleFn hshuffle (by omega) hfidN ⟨hw0, hwlt⟩ hq
        (fun t ht => ⟨(hrange t ht).1, (hrange t ht).2.1⟩)
        ⟨le_refl 0, hmuc⟩ (Or.inr htne)]
      rw [countSameAbility_one]
      rfl
    refine ⟨_, key, ?_⟩
    simp only [List.map_cons, List.map_nil, Decode, DecodeGo]
    rw [hone]
  · intro htype hfind htne hw hrz htg0 htgm htgo
    subst hw hrz
    have hpad := hpadgen (by omega)
    have hfot : FindOriginalTag target obs =
        (obs.getD target.toNat default).tag := by
      simp only [FindOriginalTag]
      rw [if_neg (by omega)]
    have key : Encode cfg L obs
        (MakeFunctionCall cfg fid 0 queued tags target 0) =
        .ok [ActionRaw.unitCommand (L.getD fid.toNat default).ability_id
          (LookupSelectedUnitTags obs
            ((List.range cfg.max_selection_size.toNat).map
              (fun i => tags.getD i
                (if fid = 0 then 0 else cfg.max_unit_count)))
            cfg.max_unit_count)
          (decide (queued ≠ 0)) (some (FindOriginalTag target obs))
          none] := by
      simp only [Encode, MakeFunctionCall, ToScalar, ToVector, MakeTensor,
        EncodeAppendRepeats, hrep, htype]
      rw [if_neg (by rw [not_or]; constructor <;> omega)]
      rw [if_neg (show ¬ target < 0 by omega)]
      rfl
    rw [hpad] at key
    have hfq : (List.range obs.length).find?
        (fun i => decide ((obs.getD i default).tag =
          FindOriginalTag target obs)) = some target.toNat := by
      apply find_first_range
      · omega
      · rw [hfot]
        exact decide_eq_true rfl
      · intro j hj
        rw [hfot]
        apply decide_eq_false
        intro heq
        have hix := obs_tag_inj obs hnodup j target.toNat (by omega)
          (by omega) heq
        omega
    have hone : DecodeOne cfg L
        [some (ActionRaw.unitCommand (L.getD fid.toNat default).ability_id
          (tags.map (fun t => (obs.getD t.toNat default).tag))
          (decide (queued ≠ 0)) (some (FindOriginalTag target obs)) none)]
        obs shuffleFn
        (some (ActionRaw.unitCommand (L.getD fid.toNat default).ability_id
          (tags.map (fun t => (obs.getD t.toNat default).tag))
          (decide (queued ≠ 0)) (some (FindOriginalTag target obs)) none)) =
        .done (MakeFunctionCall cfg fid 0 queued tags target 0) := by
      simp only [DecodeOne]
      rw [hfq]
      show DecodeFinish cfg
          [some (ActionRaw.unitCommand
            (L.getD fid.toNat default).ability_id
            (tags.map (fun t => (obs.getD t.toNat default).tag))
            (decide (queued ≠ 0)) (some (FindOriginalTag target obs))
            none)]
          (some (L.getD fid.toNat default).ability_id) false
          (FindFunction L (L.getD fid.toNat default).ability_id
            .RAW_CMD_UNIT)
          0 (if decide (queued ≠ 0) = true then 1 else 0)
          (FindSelectionIndices obs
            (tags.map (fun t => (obs.getD t.toNat default).tag)))
          (Int.ofNat target.toNat) shuffleFn =
        .done (MakeFunctionCall cfg fid 0 queued tags target 0)
      rw [hfind, ite_decide_queued queued hq.1 hq.2, hFSI]
      rw [show Int.ofNat target.toNat = target from
        Int.toNat_of_nonneg htg0]
      rw [decodeFinish_done_some cfg _ _ false fid 0 queued target tags
        shuffleFn hshuffle (by omega) hfidN
        ⟨le_refl 0, mul_pos hres hres⟩ hq
        (fun t ht => ⟨(hrange t ht).1, (hrange t ht).2.1⟩)
        ⟨htg0, htgm⟩ (Or.inr htne)]
      rw [countSameAbility_one]
      rfl
    refine ⟨_, key, ?_⟩
    simp only [List.map_cons, List.map_nil, Decode, DecodeGo]
    rw [hone]
  · intro htype hcam htgs hqz htg hrz hw0 hwlt hclamp
    subst htgs hqz htg hrz
    have key : Encode cfg L obs
        (MakeFunctionCall cfg fid world 0 [] 0 0) =
        .ok [ActionRaw.cameraMove (AgentCoordsToWorldCoords cfg world).1
          (AgentCoordsToWorldCoords cfg world).2] := by
      simp only [Encode, MakeFunctionCall, ToScalar, ToVector, MakeTensor,
        hrep, htype]
      rw [if_neg (by rw [not_or]; constructor <;> omega)]
      rfl
    have hone : DecodeOne cfg L
        [some (ActionRaw.cameraMove (AgentCoordsToWorldCoords cfg world).1
          (AgentCoordsToWorldCoords cfg world).2)]
        obs shuffleFn
        (some (ActionRaw.cameraMove (AgentCoordsToWorldCoords cfg world).1
          (AgentCoordsToWorldCoords cfg world).2)) =
        .done (MakeFunctionCall cfg fid world 0 [] 0 0) := by
      have h1 : DecodeOne cfg L
          [some (ActionRaw.cameraMove
            (AgentCoordsToWorldCoords cfg world).1
            (AgentCoordsToWorldCoords cfg world).2)]
          obs shuffleFn
          (some (ActionRaw.cameraMove
            (AgentCoordsToWorldCoords cfg world).1
            (AgentCoordsToWorldCoords cfg world).2)) =
          (if ((L.findIdx (fun f =>
              decide (f.type = .RAW_MOVE_CAMERA)) : Nat) : Int) ≤ 0 then
            DecodeStep.crash
          else
            DecodeFinish cfg
              [some (ActionRaw.cameraMove
                (AgentCoordsToWorldCoords cfg world).1
                (AgentCoordsToWorldCoords cfg world).2)]
              none true
              ((L.findIdx (fun f =>
                decide (f.type = .RAW_MOVE_CAMERA)) : Nat) : Int)
              (WorldCoordsToAgentCoords cfg
                (AgentCoordsToWorldCoords cfg world).1
                (AgentCoordsToWorldCoords cfg world).2)
              0 [] 0 shuffleFn) := rfl
      rw [h1, hcam, if_neg (by omega),
        coords_roundtrip cfg world hres hmy hw0 hclamp]
      rw [decodeFinish_done_none cfg _ true fid world 0 0 [] shuffleFn
        hshuffle (by omega) hfidN ⟨hw0, hwlt⟩ ⟨le_refl 0, by omega⟩
        (fun t ht => absurd ht (List.not_mem_nil t))
        ⟨le_refl 0, hmuc⟩ (Or.inl rfl)]
    refine ⟨_, key, ?_⟩
    simp only [List.map_cons, List.map_nil, Decode, DecodeGo]
    rw [hone]
  · intro htype hfind htne hqz hwz htg hrz
    subst hqz hwz htg hrz
    have hpad := hpadgen (by omega)
    have key : Encode cfg L obs
        (MakeFunctionCall cfg fid 0 0 tags 0 0) =
        .ok [ActionRaw.toggleAutocast (L.getD fid.toNat default).ability_id
          (LookupSelectedUnitTags obs
            ((List.range cfg.max_selection_size.toNat).map
              (fun i => tags.getD i
                (if fid = 0 then 0 else cfg.max_unit_count)))
            cfg.max_unit_count)] := by
      simp only [Encode, MakeFunctionCall, ToScalar, ToVector, MakeTensor,
        hrep, htype]
      rw [if_neg (by rw [not_or]; constructor <;> omega)]
      rfl
    rw [hpad] at key
    have hone : DecodeOne cfg L
        [some (ActionRaw.toggleAutocast
          (L.getD fid.toNat default).ability_id
          (tags.map (fun t => (obs.getD t.toNat default).tag)))]
        obs shuffleFn
        (some (ActionRaw.toggleAutocast
          (L.getD fid.toNat default).ability_id
          (tags.map (fun t => (obs.getD t.toNat default).tag)))) =
        .done (MakeFunctionCall cfg fid 0 0 tags 0 0) := by
      have h1 : DecodeOne cfg L
          [some (ActionRaw.toggleAutocast
            (L.getD fid.toNat default).ability_id
            (tags.map (fun t => (obs.getD t.toNat default).tag)))]
          obs shuffleFn
          (some (ActionRaw.toggleAutocast
            (L.getD fid.toNat default).ability_id
            (tags.map (fun t => (obs.getD t.toNat default).tag)))) =
          DecodeFinish cfg
            [some (ActionRaw.toggleAutocast
              (L.getD fid.toNat default).ability_id
              (tags.map (fun t => (obs.getD t.toNat default).tag)))]
            none false
            (FindFunction L (L.getD fid.toNat default).ability_id
              .RAW_AUTOCAST)
            0 0
            (FindSelectionIndices obs
              (tags.map (fun t => (obs.getD t.toNat default).tag)))
            0 shuffleFn := rfl
      rw [h1, hfind, hFSI]
      rw [decodeFinish_done_none cfg _ false fid 0 0 0 tags shuffleFn
        hshuffle (by omega) hfidN ⟨le_refl 0, mul_pos hres hres⟩
        ⟨le_refl 0, by omega⟩
        (fun t ht => ⟨(hrange t ht).1, (hrange t ht).2.1⟩)
        ⟨le_refl 0, hmuc⟩ (Or.inr htne)]
    refine ⟨_, key, ?_⟩
    simp only [List.map_cons, List.map_nil, Decode, DecodeGo]
    rw [hone]
  · intro htype0
    refine ⟨[], ?_, ?_⟩
    · simp only [Encode, MakeFunctionCall, ToScalar, MakeTensor]
      rw [if_neg (by rw [not_or]; constructor <;> omega)]
      simp only [Int.toNat_zero, htype0]
      rfl
    · rfl

/-- Counterexample for C1 as stated: with action repeat enabled and
repeat = 1, the command-to-point round trip fails - decoding the encoding
returns the tensor map with repeat 0, because the encoder emits a point
command only once and the decoder recovers repeat from the number of
emitted copies. -/
theorem claim_c1_counterexample :
    Encode ⟨4, 4, 4, 2, 4, 6, false, true⟩ specRawFunctions [⟨10⟩]
      (MakeFunctionCall ⟨4, 4, 4, 2, 4, 6, false, true⟩ 2 5 0 [0] 0 1) =
      .ok [.unitCommand 2 [10] false none (some (3 / 2, 5 / 2))] ∧
    Decode ⟨4, 4, 4, 2, 4, 6, false, true⟩ specRawFunctions [⟨10⟩]
      (fun l => l)
      [some (.unitCommand 2 [10] false none (some (3 / 2, 5 / 2)))] =
      some (MakeFunctionCall ⟨4, 4, 4, 2, 4, 6, false, true⟩ 2 5 0 [0] 0
        0) ∧
    MakeFunctionCall ⟨4, 4, 4, 2, 4, 6, false, true⟩ 2 5 0 [0] 0 0 ≠
      MakeFunctionCall ⟨4, 4, 4, 2, 4, 6, false, true⟩ 2 5 0 [0] 0 1 := by
  refine ⟨rfl, by decide, by decide⟩

/-- Witness for C1: on the vocabulary table, a quick command with
repeat 2 and a camera move round-trip exactly. -/
theorem claim_c1_roundtrip_witness :
    (∃ req, Encode ⟨4, 4, 4, 2, 4, 6, false, true⟩ specRawFunctions [⟨10⟩]
        (MakeFunctionCall ⟨4, 4, 4, 2, 4, 6, false, true⟩ 4 0 1 [0] 0 2) =
        .ok req ∧
      Decode ⟨4, 4, 4, 2, 4, 6, false, true⟩ specRawFunctions [⟨10⟩]
        (fun l => l) (req.map some) =
        some (MakeFunctionCall ⟨4, 4, 4, 2, 4, 6, false, true⟩ 4 0 1 [0] 0
          2)) ∧
    (∃ req, Encode ⟨4, 4, 4, 2, 4, 6, false, true⟩ specRawFunctions [⟨10⟩]
        (MakeFunctionCall ⟨4, 4, 4, 2, 4, 6, false, true⟩ 1 5 0 [] 0 0) =
        .ok req ∧
      Decode ⟨4, 4, 4, 2, 4, 6, false, true⟩ specRawFunctions [⟨10⟩]
        (fun l => l) (req.map some) =
        some (MakeFunctionCall ⟨4, 4, 4, 2, 4, 6, false, true⟩ 1 5 0 [] 0
          0)) := by
  constructor
  · exact (claim_c1_roundtrip ⟨4, 4, 4, 2, 4, 6, false, true⟩
      specRawFunctions [⟨10⟩] (fun l => l) 4 0 1 [0] 0 2 rfl rfl
      (by decide) (by decide) (by decide) (by decide) (by decide)
      (by decide) (by decide) (by decide) (by decide) (by decide)
      (by decide) (by decide)).1 rfl (by decide) (by decide) rfl rfl
      (by decide) (by decide)
  · exact (claim_c1_roundtrip ⟨4, 4, 4, 2, 4, 6, false, true⟩
      specRawFunctions [⟨10⟩] (fun l => l) 1 5 0 [] 0 0 rfl rfl
      (by decide) (by decide) (by decide) (by decide) (by decide)
      (by decide) (by decide) (by decide) (by decide) (by decide)
      (by decide) (by decide)).2.2.2.1 rfl (by decide) rfl rfl rfl rfl
      (by decide) (by decide) (by decide)

/-! ## Helper lemmas for the raw-units masking -/

theorem applyWrites_length (r : List Int) (ws : List (Nat × Int)) :
    (applyWrites r ws).length = r.length := by
  induction ws generalizing r with
  | nil => rfl
  | cons w ws ih =>
    simp only [applyWrites, List.foldl_cons]
    have h1 := ih (r.set w.1 w.2)
    simp only [applyWrites] at h1
    rw [h1, List.length_set]

theorem unitRowBase_length (units : List UnitObs) (u : UnitObs)
    (lut : List Int) (ltt : Int) (is_raw : Bool) (msx msy res : Int)
    (F : Nat) (nat : Int) (L : List RawFunction)
    (camera : Option RawCamera) :
    (unitRowBase units u lut ltt is_raw msx msy res F nat L
      camera).length = F + 2 := by
  unfold unitRowBase
  rw [applyWrites_length, List.length_replicate]

theorem getD_set_row (l : List Int) (i j : Nat) (v : Int) :
    (l.set i v).getD j 0 =
      if i = j ∧ j < l.length then v else l.getD j 0 := by
  by_cases hj : j < l.length
  · rw [List.getD_eq_getElem _ _ (show j < (l.set i v).length by
      simpa [List.length_set] using hj)]
    rw [List.getElem_set]
    by_cases hij : i = j
    · rw [if_pos hij, if_pos ⟨hij, hj⟩]
    · rw [if_neg hij, if_neg (fun hcon => hij hcon.1),
        List.getD_eq_getElem _ _ hj]
  · have h1 : l.length ≤ j := by omega
    rw [List.getD_eq_default _ _ (show (l.set i v).length ≤ j by
      simpa [List.length_set] using h1),
      List.getD_eq_default _ _ h1, if_neg (fun hcon => hj hcon.2)]

theorem maskFold_getD (M : List Nat) (r : List Int) (n j : Nat)
    (hlen : r.length = n) :
    (M.foldl (fun acc f => if f < n then acc.set f 0 else acc) r).getD j
      0 = if j ∈ M ∧ j < n then 0 else r.getD j 0 := by
  induction M generalizing r with
  | nil =>
    rw [List.foldl_nil, if_neg (fun hcon => (List.not_mem_nil j) hcon.1)]
  | cons f M ih =>
    rw [List.foldl_cons]
    have hlen2 : (if f < n then r.set f 0 else r).length = n := by
      by_cases hf : f < n
      · rw [if_pos hf, List.length_set, hlen]
      · rw [if_neg hf, hlen]
    rw [ih _ hlen2]
    by_cases hjM : j ∈ M ∧ j < n
    · rw [if_pos hjM, if_pos ⟨List.mem_cons_of_mem f hjM.1, hjM.2⟩]
    · rw [if_neg hjM]
      by_cases hjf : j = f ∧ j < n
      · have hfn : f < n := hjf.1 ▸ hjf.2
        rw [if_pos hfn, getD_set_row, if_pos ⟨hjf.1.symm, by omega⟩,
          if_pos ⟨by rw [hjf.1]; exact List.mem_cons_self f M, hjf.2⟩]
      · have hRHS : ¬ (j ∈ f :: M ∧ j < n) := by
          intro hcon
          rcases List.mem_cons.mp hcon.1 with h | h
          · exact hjf ⟨h, hcon.2⟩
          · exact hjM ⟨h, hcon.2⟩
        rw [if_neg hRHS]
        by_cases hf : f < n
        · rw [if_pos hf, getD_set_row,
            if_neg (fun hcon => hjf ⟨hcon.1.symm, by omega⟩)]
        · rw [if_neg hf]

/-- C3 (amended): for an enemy unit (alliance 4) outside the camera with
offscreen-enemy masking on: if it is cloaked (cloak 1) and NOT also
visible (display_type 1), its whole row is zeroed except column 29, which
keeps the tag exactly when raw-identity mode is on; if it is visible and
NOT also cloaked, column 0 becomes the masked sentinel 254, the in-range
kUnitFeaturesToMask columns are zeroed, and every other column - among
them alliance (1), display type (10), owner (11), position (12, 13),
radius (15) and is_selected (17), none of which is in the mask list -
keeps its unmasked value.  A unit that is both cloaked and visible gets
both treatments in order, so its type column reads 254, not 0. -/
theorem claim_c3_masking (units : List UnitObs) (u : UnitObs)
    (lut : List Int) (ltt : Int) (is_raw : Bool) (msx msy res : Int)
    (F : Nat) (nat : Int) (L : List RawFunction)
    (camera : Option RawCamera)
    (hall : u.alliance = 4)
    (hoff : unitIsOnScreen camera u = false) :
    (u.cloak = 1 → u.display_type ≠ 1 →
      rawUnitRow units u lut ltt is_raw true msx msy res F nat L camera =
        (if is_raw then (List.replicate (F + 2) 0).set 29 u.tag
         else List.replicate (F + 2) 0)) ∧
    (u.display_type = 1 → u.cloak ≠ 1 → ∀ j, j < F + 2 →
      (rawUnitRow units u lut ltt is_raw true msx msy res F nat L
        camera).getD j 0 =
        if j = 0 then kMaskedUnitTypeId
        else if j ∈ kUnitFeaturesToMask then 0
        else (unitRowBase units u lut ltt is_raw msx msy res F nat L
          camera).getD j 0) ∧
    (1 ∉ kUnitFeaturesToMask ∧ 10 ∉ kUnitFeaturesToMask ∧
     11 ∉ kUnitFeaturesToMask ∧ 12 ∉ kUnitFeaturesToMask ∧
     13 ∉ kUnitFeaturesToMask ∧ 15 ∉ kUnitFeaturesToMask ∧
     17 ∉ kUnitFeaturesToMask ∧ 0 ∉ kUnitFeaturesToMask ∧
     29 ∉ kUnitFeaturesToMask) := by
  refine ⟨?_, ?_, by decide⟩
  · intro hcloak hdisp
    simp only [rawUnitRow]
    rw [hall, hoff, hcloak]
    rw [if_neg (fun hcon => by
      simp only [Bool.and_eq_true, decide_eq_true_eq] at hcon
      exact hdisp hcon.2)]
    rw [if_pos (by decide)]
  · intro hdisp hcloak j hj
    simp only [rawUnitRow]
    rw [hall, hoff, hdisp]
    rw [if_pos (by decide)]
    rw [if_neg (fun hcon => by
      simp only [Bool.and_eq_true, decide_eq_true_eq] at hcon
      exact hcloak hcon.2)]
    rw [maskFold_getD kUnitFeaturesToMask _ (F + 2) j
      (by rw [List.length_set, unitRowBase_length])]
    rw [getD_set_row, unitRowBase_length]
    by_cases hj0 : j = 0
    · subst hj0
      rw [if_neg (fun hcon => absurd hcon.1 (by decide)),
        if_pos ⟨rfl, hj⟩, if_pos rfl]
    · by_cases hjM : j ∈ kUnitFeaturesToMask
      · rw [if_pos ⟨hjM, hj⟩, if_neg hj0, if_pos hjM]
      · rw [if_neg (fun hcon => hjM hcon.1),
          if_neg (fun hcon => hj0 hcon.1.symm), if_neg hj0, if_neg hjM]

/-- Counterexample for C3 as stated: a unit that is both cloaked
(cloak = 1) and visible (display_type = 1) runs through both masking
branches, so its type column holds the masked sentinel 254 and its row is
not all-zero-except-tag as the cloaked clause requires. -/
theorem claim_c3_counterexample :
    (rawUnitRow []
      { alliance := 4, cloak := 1, display_type := 1, tag := 7 }
      [] (-1) true true 4 4 4 40 6 [] none).getD 0 0 =
      kMaskedUnitTypeId ∧
    kMaskedUnitTypeId ≠ 0 ∧
    ({ alliance := 4, cloak := 1, display_type := 1, tag := 7 } :
      UnitObs).cloak = 1 ∧
    unitIsOnScreen none
      { alliance := 4, cloak := 1, display_type := 1, tag := 7 } =
      false := by
  refine ⟨by decide, by decide, rfl, rfl⟩

/-- Witness for C3: a cloaked-only masked enemy row is all zero except
the tag column, and a visible-only masked enemy keeps a zeroed health
column under the sentinel type. -/
theorem claim_c3_masking_witness :
    rawUnitRow [] { alliance := 4, cloak := 1, display_type := 3, tag := 7 }
      [] (-1) true true 4 4 4 40 6 [] none =
      (List.replicate 42 0).set 29 7 ∧
    (rawUnitRow [] { alliance := 4, cloak := 3, display_type := 1 }
      [] (-1) true true 4 4 4 40 6 [] none).getD 2 0 = 0 := by
  constructor
  · exact (claim_c3_masking []
      { alliance := 4, cloak := 1, display_type := 3, tag := 7 }
      [] (-1) true 4 4 4 40 6 [] none rfl rfl).1 rfl (by decide)
  · exact (claim_c3_masking []
      { alliance := 4, cloak := 3, display_type := 1 }
      [] (-1) true 4 4 4 40 6 [] none rfl rfl).2.1 rfl (by decide) 2
      (by decide)


end PySC2
